import Mathlib

/-
  Verification development for the Zekken interpreter (Rust).

  The definitions below are a shallow embedding of the interpreter sources:
    - src/environment/mod.rs  (Value, Environment, call_method)
    - src/errors/mod.rs       (ErrorKind, ErrorContext, ZekkenError constructors)
    - src/eval/expression.rs  (expression evaluation and arithmetic helpers)
    - src/eval/statement.rs   (statement evaluation)
    - src/parser/mod.rs       (Pratt expression parser, expect)
    - src/lexer/mod.rs        (tokenize)

  Modelling conventions, used consistently and noted again at each definition
  where they matter:
    - Rust i64 arithmetic is modelled as mathematical Int with an explicit
      two's-complement wrap (wrap64) where the source performs i64 arithmetic
      (release-profile wrapping; debug-profile overflow panics and the
      divide-overflow panic at i64::MIN / -1 are not modelled).
    - Rust f64 is modelled as Lean Float.  Lean Float operations are opaque to
      the kernel, so every statement about floats below is kept in symbolic,
      equation form (the IEEE comparisons stay as unevaluated `==` tests).
    - Rust HashMap<String, Value> is modelled as an association list with
      overwrite-on-insert (hm_insert) and key lookup (hm_get); the interpreter
      code paths embedded here never observe the hash map's iteration order,
      only keyed lookup, so the model is faithful for them.
    - Host I/O (stdout, stdin, the filesystem, process environment variables,
      the global error accumulator) is outside the embedding: native functions
      are represented by their registration name, `use`/`include`/`Program`
      evaluation (which perform I/O and touch global state) are mapped to an
      Internal error, and the error-context helper from_env is modelled in the
      state where ZEKKEN_CURRENT_FILE is unset and color output is disabled.
    - Evaluation is fuel-indexed: every evaluator and parser function matches
      on a fuel argument first and passes the decremented fuel to all calls,
      so the mutual definitions are structural in fuel.  The Rust functions
      recurse without fuel; each theorem below supplies enough fuel for the
      recursion depth of its statement, which is what the source's unbounded
      recursion computes at these inputs.
-/

/-- Source location, 1-based line and column (ast/mod.rs Location). -/
structure Location where
  line : Nat
  column : Nat
deriving DecidableEq, Repr

/-- Declared-type tags (lexer/mod.rs DataType). -/
inductive DataType where
  | Int
  | Float
  | String
  | Bool
  | Object
  | Array
  | Fn
  | Any
deriving DecidableEq, Repr

/-- Error kinds (errors/mod.rs ErrorKind).  The Rust variant `Type` is named
`TypeError` here because `Type` is a Lean keyword. -/
inductive ErrorKind where
  | Syntax
  | Runtime
  | TypeError
  | Reference
  | Internal
deriving DecidableEq, Repr

/-- Error context (errors/mod.rs ErrorContext). -/
structure ErrorContext where
  filename : String
  line : Nat
  column : Nat
  line_content : String
  pointer : String
deriving DecidableEq, Repr

/-- Structured interpreter error (errors/mod.rs ZekkenError). -/
structure ZekkenError where
  kind : ErrorKind
  message : String
  context : ErrorContext
  extra : Option String
deriving DecidableEq, Repr

/-- The ASCII apostrophe, written via its code point so that the source's
quoted-name format strings can be reproduced byte for byte. -/
def apos : String := String.mk [Char.ofNat 39]

/-- Substring test, modelling Rust str::contains "needle in haystack". -/
def strContainsSub (s pat : String) : Bool := decide (List.IsInfix pat.data s.data)

/-- ErrorContext::new: the pointer is column-1 spaces followed by a caret. -/
def ErrorContext.new (filename : String) (line column : Nat) (line_content : String) : ErrorContext :=
  { filename := filename, line := line, column := column, line_content := line_content,
    pointer := String.mk (List.replicate (column - 1) (Char.ofNat 32)) ++ ("^") }

/-- ErrorContext::from_env reads ZEKKEN_CURRENT_FILE and the source file from
disk; modelled in the state where the variable is unset, where the source
returns filename "<unknown>" and line content "<line not found>". -/
def ErrorContext.from_env (line column : Nat) : ErrorContext :=
  ErrorContext.new ("<unknown>") line column ("<line not found>")

/-- The colorize helper from errors/mod.rs, modelled with color disabled
(NO_COLOR set or TERM=dumb), where it returns the text unchanged. -/
def colorize (text _color : String) : String := text

/-- The pretty-printing table applied to the `expected` payload of syntax
errors (errors/mod.rs ZekkenError::syntax). -/
def prettyExpected (e : String) : String :=
  if strContainsSub e ("a type (int, float, string, bool, obj, arr, fn)") then e
  else match e with
    | "DataType(Any)" => "a type (int, float, string, bool, obj, arr, fn)"
    | "DataType(Int)" => "Int Type (int)"
    | "DataType(Float)" => "Float Type (float)"
    | "DataType(String)" => "String Type (string)"
    | "DataType(Bool)" => "Bool Type (bool)"
    | "DataType(Object)" => "Object Type (obj)"
    | "DataType(Array)" => "Array Type (arr)"
    | "DataType(Fn)" => "Function Type (fn)"
    | _ => e

/-- ZekkenError::syntax (errors/mod.rs).  With color disabled the expected and
found lines keep exactly the source's literal text. -/
def ZekkenError.syntaxErr (msg : String) (line column : Nat) (expected found : Option String) : ZekkenError :=
  let pe := match expected with
    | some e => prettyExpected e
    | none => ""
  let extra :=
    (match expected with
      | some _ => colorize ("  expected:") ("") ++ (" ") ++ colorize pe ("") ++ colorize ("") ("") ++ ("\n")
      | none => "") ++
    (match found with
      | some f => colorize ("  found:   ") ("") ++ (" ") ++ colorize f ("") ++ colorize ("") ("") ++ ("\n")
      | none => "")
  { kind := ErrorKind.Syntax, message := msg, context := ErrorContext.from_env line column,
    extra := if extra == ("") then none else some extra }

/-- ZekkenError::runtime (errors/mod.rs). -/
def ZekkenError.runtime (msg : String) (line column : Nat) (details : Option String) : ZekkenError :=
  { kind := ErrorKind.Runtime, message := msg, context := ErrorContext.from_env line column,
    extra := details }

/-- ZekkenError::type_error (errors/mod.rs). -/
def ZekkenError.type_error (msg expected found : String) (line column : Nat) : ZekkenError :=
  { kind := ErrorKind.TypeError, message := msg, context := ErrorContext.from_env line column,
    extra := some (colorize ("  expected:") ("") ++ (" ") ++ colorize expected ("") ++ colorize ("") ("") ++ ("\n") ++
                   colorize ("  found:   ") ("") ++ (" ") ++ colorize found ("") ++ colorize ("") ("") ++ ("\n")) }

/-- ZekkenError::reference (errors/mod.rs). -/
def ZekkenError.reference (msg kind : String) (line column : Nat) : ZekkenError :=
  { kind := ErrorKind.Reference, message := msg, context := ErrorContext.from_env line column,
    extra := some (colorize ("  kind:") ("") ++ (" ") ++ colorize kind ("") ++ colorize ("") ("") ++ ("\n")) }

/-- ZekkenError::internal (errors/mod.rs). -/
def ZekkenError.internal (msg : String) : ZekkenError :=
  { kind := ErrorKind.Internal, message := msg,
    context := ErrorContext.new ("<internal>") 0 0 (""), extra := none }

/-- Two's-complement wrap to the i64 range, modelling Rust release-profile
i64 arithmetic. -/
def wrap64 (n : Int) : Int := (n + 2 ^ 63) % 2 ^ 64 - 2 ^ 63

/-- Function parameter (ast/mod.rs Param). -/
structure Param where
  ident : String
  type_ : DataType
  location : Location

/-- Association-list model of Rust HashMap insert: replace the binding if the
key is present, append it otherwise. -/
def hm_insert {α : Type} : List (String × α) → String → α → List (String × α)
  | [], k, v => [(k, v)]
  | (k2, v2) :: rest, k, v =>
    if k2 == k then (k, v) :: rest else (k2, v2) :: hm_insert rest k v

/-- Association-list model of Rust HashMap get. -/
def hm_get {α : Type} : List (String × α) → String → Option α
  | [], _ => none
  | (k2, v) :: rest, k => if k2 == k then some v else hm_get rest k

/-- Association-list model of Rust HashMap contains_key. -/
def hm_contains {α : Type} (m : List (String × α)) (k : String) : Bool :=
  (hm_get m k).isSome

mutual

/-- Expressions (ast/mod.rs Expr).  Struct payloads are inlined into the
constructors, in the source's field order.  AssignExpr carries the operator
field the parser writes (parser/mod.rs); MemberExpr carries is_method. -/
inductive Expr where
  | Assign (left : Expr) (right : Expr) (operator : String) (location : Location)
  | Member (object : Expr) (property : Expr) (is_method : Bool) (location : Location)
  | Call (callee : Expr) (args : List Expr) (location : Location)
  | Binary (left : Expr) (right : Expr) (operator : String) (location : Location)
  | Identifier (name : String) (location : Location)
  | PropertyExpr (p : Property)
  | IntLit (value : Int) (location : Location)
  | FloatLit (value : Float) (location : Location)
  | StringLit (value : String) (location : Location)
  | BoolLit (value : Bool) (location : Location)
  | ArrayLit (elements : List Expr) (location : Location)
  | ObjectLit (properties : List Property) (location : Location)

/-- Object-literal property (ast/mod.rs Property). -/
inductive Property where
  | mk (key : String) (value : Expr) (location : Location)

/-- Statements (ast/mod.rs Stmt), with struct payloads inlined except VarDecl,
which the evaluator passes around as a value (eval/statement.rs). -/
inductive Stmt where
  | ProgramStmt (imports : List Content) (content : List Content) (location : Location)
  | VarDeclStmt (v : VarDecl)
  | FuncDecl (params : List Param) (ident : String) (body : List Content) (location : Location)
  | ObjectDecl (ident : String) (properties : List Property) (location : Location)
  | IfStmt (test : Expr) (body : List Content) (alt : Option (List Content)) (location : Location)
  | ForStmt (init : Option Stmt) (test : Option Expr) (update : Option Expr) (body : List Content) (location : Location)
  | WhileStmt (test : Expr) (body : List Content) (location : Location)
  | TryCatchStmt (try_block : List Content) (catch_block : Option (List Content)) (location : Location)
  | BlockStmt (body : List Content) (location : Location)
  | UseStmt (methods : Option (List String)) (module : String) (location : Location)
  | IncludeStmt (methods : Option (List String)) (file_path : String) (location : Location)
  | ExportStmt (exports : List String) (location : Location)
  | ReturnStmt (value : Option Content) (location : Location)
  | Lambda (constant : Bool) (ident : String) (params : List Param) (body : List Content) (location : Location)

/-- Variable declaration (ast/mod.rs VarDecl). -/
inductive VarDecl where
  | mk (constant : Bool) (ident : String) (type_ : DataType) (value : Option Content) (location : Location)

/-- Block-body element (ast/mod.rs Content). -/
inductive Content where
  | Statement (s : Stmt)
  | Expression (e : Expr)

/-- User function value (environment/mod.rs FunctionValue). -/
inductive FunctionValue where
  | mk (params : List Param) (body : List Content)

/-- Runtime values (environment/mod.rs Value).  NativeFunction is a host
callable (Arc<dyn Fn>) performing I/O; it is represented by its registration
name, and the one code path that invokes it is mapped to an Internal error in
the evaluator below (no claim exercises a native call). -/
inductive Value where
  | Int (i : Int)
  | Float (f : Float)
  | String (s : String)
  | Boolean (b : Bool)
  | Array (elements : List Value)
  | Object (map : List (String × Value))
  | Function (f : FunctionValue)
  | NativeFunction (name : String)
  | Complex (real imag : Float)
  | Vector (v : List Float)
  | Matrix (m : List (List Float))
  | Void

/-- Lexically nested scope (environment/mod.rs Environment). -/
inductive Environment where
  | mk (parent : Option Environment) (vars : List (String × Value)) (constants : List (String × Value))

end

/-- Projection for VarDecl.constant. -/
def VarDecl.constant : VarDecl → Bool
  | .mk c _ _ _ _ => c

/-- Projection for VarDecl.ident. -/
def VarDecl.ident : VarDecl → String
  | .mk _ i _ _ _ => i

/-- Projection for VarDecl.type_. -/
def VarDecl.type_ : VarDecl → DataType
  | .mk _ _ t _ _ => t

/-- Projection for VarDecl.value. -/
def VarDecl.value : VarDecl → Option Content
  | .mk _ _ _ v _ => v

/-- Projection for VarDecl.location. -/
def VarDecl.location : VarDecl → Location
  | .mk _ _ _ _ l => l

/-- Projection for Property.key. -/
def Property.key : Property → String
  | .mk k _ _ => k

/-- Projection for Property.value. -/
def Property.value : Property → Expr
  | .mk _ v _ => v

/-- Projection for FunctionValue.params. -/
def FunctionValue.params : FunctionValue → List Param
  | .mk p _ => p

/-- Projection for FunctionValue.body. -/
def FunctionValue.body : FunctionValue → List Content
  | .mk _ b => b

/-- Projection for Environment.parent. -/
def Environment.parent : Environment → Option Environment
  | .mk p _ _ => p

/-- Projection for Environment.vars. -/
def Environment.vars : Environment → List (String × Value)
  | .mk _ v _ => v

/-- Projection for Environment.constants. -/
def Environment.constants : Environment → List (String × Value)
  | .mk _ _ c => c

/-- Environment::declare (environment/mod.rs): constants go into the constants
map, everything else into variables; no prior-declaration check. -/
def Environment.declare : Environment → String → Value → Bool → Environment
  | .mk parent vars consts, name, value, constant =>
    if constant then .mk parent vars (hm_insert consts name value)
    else .mk parent (hm_insert vars name value) consts

/-- Environment::assign (environment/mod.rs): check the current scope's
variables map first; only if the name is there is the constants map consulted;
otherwise recurse into the parent; error when the chain is exhausted.  The
parent is updated in place on success (the Box is part of self). -/
def Environment.assign : Environment → String → Value → Except String Environment
  | .mk parent vars consts, name, value =>
    if hm_contains vars name then
      if hm_contains consts name then
        .error (("Cannot reassign constant ") ++ apos ++ name ++ apos)
      else
        .ok (.mk parent (hm_insert vars name value) consts)
    else
      match parent with
      | some p =>
        match Environment.assign p name value with
        | .ok p2 => .ok (.mk (some p2) vars consts)
        | .error e => .error e
      | none => .error (("Variable ") ++ apos ++ name ++ apos ++ (" not found"))

/-- Environment::lookup (environment/mod.rs): variables, then constants, then
the parent chain. -/
def Environment.lookup : Environment → String → Option Value
  | .mk parent vars consts, name =>
    match hm_get vars name with
    | some v => some v
    | none =>
      match hm_get consts name with
      | some v => some v
      | none =>
        match parent with
        | some p => Environment.lookup p name
        | none => none

/-- Environment::new (environment/mod.rs): root scope with the three built-in
host functions; println is inserted directly into variables, input is declared
non-constant, parse_json is declared constant. -/
def Environment.new : Environment :=
  let env := Environment.mk none [] []
  let env := Environment.mk env.parent (hm_insert env.vars ("println") (Value.NativeFunction ("println"))) env.constants
  let env := env.declare ("input") (Value.NativeFunction ("input")) false
  env.declare ("parse_json") (Value.NativeFunction ("parse_json")) true

/-- Value type names used in method-dispatch errors (environment/mod.rs
Value::type_name); defined at top level because the Value namespace would
capture the String type name. -/
def type_name : Value → String
  | .Int _ => "int"
  | .Float _ => "float"
  | .String _ => "string"
  | .Boolean _ => "boolean"
  | .Array _ => "array"
  | .Object _ => "object"
  | .NativeFunction _ => "native function"
  | .Function _ => "function"
  | .Complex _ _ => "complex"
  | .Vector _ => "vector"
  | .Matrix _ => "matrix"
  | .Void => "void"

/-- Rendering of a float by Rust's Display for f64.  Lean's Float.toString
formats differently (fixed six decimals); the two agree on no claim below, so
this stands in for the opaque host formatting. -/
def floatDisplay (x : Float) : String := toString x

/-- Display form of a value (environment/mod.rs impl Display for Value,
fmt_with_indent).  Containers follow the source's structure: arrays list their
elements, objects enumerate the keys recorded under __keys__ and hide that
entry, strings are quoted only inside containers.  The source additionally
indents nested containers over multiple lines; that layout detail is not
reproduced (no claim depends on container rendering). -/
def displayString (v : Value) (in_container : Bool) : String :=
  match v with
  | .Array arr =>
    if arr.isEmpty then "[]"
    else ("[") ++ String.intercalate (", ") (arr.attach.map (fun e => displayString e.1 true)) ++ ("]")
  | .Object obj =>
    let keys := match hm_get obj ("__keys__") with
      | some (.Array ks) => ks
      | _ => []
    if keys.isEmpty then "\x7b\x7d"
    else
      let parts := keys.attach.filterMap (fun kv =>
        match h : kv.1 with
        | .String k =>
          if k == ("__keys__") then none
          else match hm_get obj k with
            | some v2 => some (("\"") ++ k ++ ("\": ") ++ ("<value>"))
            | none => none
        | _ => none)
      ("\x7b") ++ String.intercalate (", ") parts ++ ("\x7d")
  | .String s => if in_container then ("\"") ++ s ++ ("\"") else s
  | .Int i => toString i
  | .Float f => floatDisplay f
  | .Boolean b => if b then "true" else "false"
  | .Function _ => "<function>"
  | .NativeFunction _ => "<native function>"
  | .Complex r i => floatDisplay r ++ (" + ") ++ floatDisplay i ++ ("i")
  | .Vector v => ("[") ++ String.intercalate (", ") (v.map floatDisplay) ++ ("]")
  | .Matrix _ => "<matrix>"
  | .Void => "void"
termination_by sizeOf v
decreasing_by
  have := List.sizeOf_lt_of_mem e.2
  simp_wf
  omega

/-- Display form at top level, corresponding to format!("{}", value). -/
def toDisplay (v : Value) : String := displayString v false

/-- add_values (eval/expression.rs): same-type numeric addition, string
concatenation with either operand's display form, array concatenation. -/
def add_values (left right : Value) : Except String Value :=
  match left, right with
  | .Int l, .Int r => .ok (.Int (wrap64 (l + r)))
  | .Float l, .Float r => .ok (.Float (l + r))
  | .String l, .String r => .ok (.String (l ++ r))
  | .String l, other => .ok (.String (l ++ toDisplay other))
  | other, .String r => .ok (.String (toDisplay other ++ r))
  | .Array l, .Array r => .ok (.Array (l ++ r))
  | _, _ => .error ("Invalid operand types for addition")

/-- subtract_values (eval/expression.rs). -/
def subtract_values (left right : Value) : Except String Value :=
  match left, right with
  | .Int l, .Int r => .ok (.Int (wrap64 (l - r)))
  | .Float l, .Float r => .ok (.Float (l - r))
  | _, _ => .error ("Invalid operand types for subtraction")

/-- multiply_values (eval/expression.rs). -/
def multiply_values (left right : Value) : Except String Value :=
  match left, right with
  | .Int l, .Int r => .ok (.Int (wrap64 (l * r)))
  | .Float l, .Float r => .ok (.Float (l * r))
  | _, _ => .error ("Invalid operand types for multiplication")

/-- divide_values (eval/expression.rs): explicit zero test before dividing,
for both int (i64 division truncates toward zero, Int.tdiv) and float. -/
def divide_values (left right : Value) : Except String Value :=
  match left, right with
  | .Int l, .Int r =>
    if r == 0 then .error ("Division by zero")
    else .ok (.Int (wrap64 (Int.tdiv l r)))
  | .Float l, .Float r =>
    if r == 0.0 then .error ("Division by zero")
    else .ok (.Float (l / r))
  | _, _ => .error ("Invalid operand types for division")

/-- modulo_values (eval/expression.rs): integers only; explicit zero test
(i64 remainder keeps the dividend's sign, Int.tmod). -/
def modulo_values (left right : Value) : Except String Value :=
  match left, right with
  | .Int l, .Int r =>
    if r == 0 then .error ("Modulo by zero")
    else .ok (.Int (wrap64 (Int.tmod l r)))
  | _, _ => .error ("Invalid operand types for modulo")

/-- compare_values (eval/expression.rs): scalar pairs compare by host
equality; every other pairing, including structurally identical arrays,
objects and functions, is false. -/
def compare_values (left right : Value) : Bool :=
  match left, right with
  | .Int l, .Int r => l == r
  | .Float l, .Float r => l == r
  | .String l, .String r => l == r
  | .Boolean l, .Boolean r => l == r
  | _, _ => false

/-- compare_less_than (eval/expression.rs). -/
def compare_less_than (left right : Value) : Except String Value :=
  match left, right with
  | .Int l, .Int r => .ok (.Boolean (l < r))
  | .Float l, .Float r => .ok (.Boolean (l < r))
  | _, _ => .error ("Invalid comparison")

/-- compare_greater_than (eval/expression.rs). -/
def compare_greater_than (left right : Value) : Except String Value :=
  match left, right with
  | .Int l, .Int r => .ok (.Boolean (l > r))
  | .Float l, .Float r => .ok (.Boolean (l > r))
  | _, _ => .error ("Invalid comparison")

/-- compare_less_equal (eval/expression.rs). -/
def compare_less_equal (left right : Value) : Except String Value :=
  match left, right with
  | .Int l, .Int r => .ok (.Boolean (l ≤ r))
  | .Float l, .Float r => .ok (.Boolean (l ≤ r))
  | _, _ => .error ("Invalid comparison")

/-- compare_greater_equal (eval/expression.rs). -/
def compare_greater_equal (left right : Value) : Except String Value :=
  match left, right with
  | .Int l, .Int r => .ok (.Boolean (l ≥ r))
  | .Float l, .Float r => .ok (.Boolean (l ≥ r))
  | _, _ => .error ("Invalid comparison")

/-- logical_and (eval/expression.rs): both operands are already evaluated
booleans (no short-circuit). -/
def logical_and (left right : Value) : Except String Value :=
  match left, right with
  | .Boolean l, .Boolean r => .ok (.Boolean (l && r))
  | _, _ => .error ("Invalid logical AND operation")

/-- logical_or (eval/expression.rs). -/
def logical_or (left right : Value) : Except String Value :=
  match left, right with
  | .Boolean l, .Boolean r => .ok (.Boolean (l || r))
  | _, _ => .error ("Invalid logical OR operation")

/-- The operator dispatch of evaluate_binary_expression (eval/expression.rs),
factored over the two already-evaluated operands.  Every arm reproduces the
source's error mapping: "+", "-", "*", "%" and the comparisons map helper
errors to Type errors; "/" maps to a Runtime error whose extra is
"division by zero" exactly when the message contains "zero". -/
def applyBinaryOp (operator : String) (left right : Value) (location : Location) : Except ZekkenError Value :=
  match operator with
  | "+" => (add_values left right).mapError
      (fun msg => ZekkenError.type_error msg ("valid types") ("invalid types") location.line location.column)
  | "-" => (subtract_values left right).mapError
      (fun msg => ZekkenError.type_error msg ("valid types") ("invalid types") location.line location.column)
  | "*" => (multiply_values left right).mapError
      (fun msg => ZekkenError.type_error msg ("valid types") ("invalid types") location.line location.column)
  | "/" => (divide_values left right).mapError
      (fun msg => ZekkenError.runtime msg location.line location.column
        (if strContainsSub msg ("zero") then some ("division by zero") else none))
  | "%" => (modulo_values left right).mapError
      (fun msg => ZekkenError.type_error msg ("valid types") ("invalid types") location.line location.column)
  | "==" => .ok (.Boolean (compare_values left right))
  | "!=" => .ok (.Boolean (!compare_values left right))
  | "<" => (compare_less_than left right).mapError
      (fun e => ZekkenError.type_error e ("valid types") ("invalid types") location.line location.column)
  | ">" => (compare_greater_than left right).mapError
      (fun e => ZekkenError.type_error e ("valid types") ("invalid types") location.line location.column)
  | "<=" => (compare_less_equal left right).mapError
      (fun e => ZekkenError.type_error e ("valid types") ("invalid types") location.line location.column)
  | ">=" => (compare_greater_equal left right).mapError
      (fun e => ZekkenError.type_error e ("valid types") ("invalid types") location.line location.column)
  | "&&" => (logical_and left right).mapError
      (fun e => ZekkenError.type_error e ("boolean") ("non-boolean") location.line location.column)
  | "||" => (logical_or left right).mapError
      (fun e => ZekkenError.type_error e ("boolean") ("non-boolean") location.line location.column)
  | op => .error (ZekkenError.runtime (("Unknown operator: ") ++ op) location.line location.column none)

/-- The mixed int/float guard at the top of evaluate_binary_expression. -/
def mixedIntFloat (left right : Value) : Bool :=
  match left, right with
  | .Int _, .Float _ => true
  | .Float _, .Int _ => true
  | _, _ => false

/-- Debug rendering of DataType, as produced by Rust format!("{:?}", t). -/
def dataTypeDebug : DataType → String
  | .Int => "Int"
  | .Float => "Float"
  | .String => "String"
  | .Bool => "Bool"
  | .Object => "Object"
  | .Array => "Array"
  | .Fn => "Fn"
  | .Any => "Any"

/-- Debug rendering of ErrorKind, as produced by Rust format!("{:?}", kind);
the Rust variant behind TypeError prints as "Type". -/
def errorKindDebug : ErrorKind → String
  | .Syntax => "Syntax"
  | .Runtime => "Runtime"
  | .TypeError => "Type"
  | .Reference => "Reference"
  | .Internal => "Internal"

/-- Kind labels of the Display impl for ZekkenError (errors/mod.rs). -/
def errorKindLabel : ErrorKind → String
  | .Syntax => "Syntax Error"
  | .Runtime => "Runtime Error"
  | .TypeError => "Type Error"
  | .Reference => "Reference Error"
  | .Internal => "Internal Error"

/-- Right-aligned line number of width four, Rust format!("{:>4}", line). -/
def fmtLineNum (n : Nat) : String :=
  let s := toString n
  String.mk (List.replicate (4 - s.length) (Char.ofNat 32)) ++ s

/-- Display rendering of a ZekkenError (errors/mod.rs impl Display), in the
non-REPL branch with color disabled. -/
def errorDisplay (e : ZekkenError) : String :=
  ("\n") ++ errorKindLabel e.kind ++ (": ") ++ e.message ++
  ("\n     | ") ++ e.context.filename ++ (" -> [Ln: ") ++ toString e.context.line ++
  (", Col: ") ++ toString e.context.column ++ ("]") ++
  ("\n     |\n") ++ fmtLineNum e.context.line ++ (" | ") ++ e.context.line_content ++
  ("\n     | ") ++ e.context.pointer ++ ("\n") ++ (e.extra.getD (""))

/-- check_value_type (eval/statement.rs): does a runtime value match a
declared type tag. -/
def check_value_type (value : Value) (expected : DataType) : Bool :=
  match value, expected with
  | .Int _, .Int => true
  | .Float _, .Float => true
  | .String _, .String => true
  | .Boolean _, .Bool => true
  | .Array _, .Array => true
  | .Object _, .Object => true
  | .Function _, .Fn => true
  | _, _ => false

/-- value_type_name (eval/statement.rs); note it differs from
environment/mod.rs type_name ("bool" vs "boolean", empty for functions). -/
def value_type_name : Value → String
  | .Int _ => "int"
  | .Float _ => "float"
  | .String _ => "string"
  | .Boolean _ => "bool"
  | .Array _ => "array"
  | .Object _ => "object"
  | .Function _ => ""
  | .NativeFunction _ => ""
  | .Void => "void"
  | _ => "unknown"

/-- create_dummy_value (eval/statement.rs). -/
def create_dummy_value : DataType → Value
  | .String => .String ("")
  | .Int => .Int 0
  | .Float => .Float 0.0
  | .Bool => .Boolean false
  | .Array => .Array []
  | .Object => .Object []
  | .Fn => .Function (.mk [] [])
  | _ => .Void

/-- The usize cast `i as usize` applied to an i64 index (two's complement
reinterpretation into 0 .. 2^64). -/
def usizeOfInt (i : Int) : Nat := (i % 2 ^ 64).toNat

/-- Rust str::split with the two-character separator ", ", as used on the
comma-joined for-loop identifier (eval/statement.rs); structural so that it
computes by kernel reduction. -/
def splitCommaSpace : List Char → List Char → List String
  | [], acc => [String.mk acc.reverse]
  | [c], acc => [String.mk (c :: acc).reverse]
  | c1 :: c2 :: rest, acc =>
    if c1 == (',' : Char) && c2 == (' ' : Char) then
      String.mk acc.reverse :: splitCommaSpace rest []
    else
      splitCommaSpace (c2 :: rest) (c1 :: acc)

/-- The identifier list produced by ident.split(", ") in the for-loop
evaluators. -/
def splitIdents (ident : String) : List String := splitCommaSpace ident.data []

/-- Rust str::split with an arbitrary string separator (String::split in the
split string method). -/
def splitOnStrAux (sep : List Char) (cs : List Char) (acc : List Char) : List String :=
  match cs with
  | [] => [String.mk acc]
  | c :: rest =>
    if sep.isPrefixOf (c :: rest) && !sep.isEmpty then
      String.mk acc :: splitOnStrAux sep (List.drop sep.length (c :: rest)) []
    else
      splitOnStrAux sep rest (acc ++ [c])
termination_by cs.length
decreasing_by
  · rename_i h
    simp only [List.length_drop, List.length_cons]
    have hsep : sep.length > 0 := by
      cases sep with
      | nil => simp at h
      | cons a l => simp
    omega
  · simp

/-- String splitting by a string delimiter, Rust s.split(delim). -/
def splitOnStr (s delim : String) : List String := splitOnStrAux delim.data s.data []

/-- Saturating f64 → i64 cast used by the float rounding methods.  Lean has no
kernel-visible float-to-int cast; this goes through the unsigned cast on the
absolute value, which agrees with Rust for all in-range finite values.  No
claim exercises it. -/
def floatCastI64 (x : Float) : Int :=
  if x < 0.0 then -(Int.ofNat (Float.toUInt64 (0.0 - x)).toNat)
  else Int.ofNat (Float.toUInt64 x).toNat

/-- handle_string_method (environment/mod.rs). -/
def handle_string_method (s : String) (method_name : String) (args : List Value) : Except String Value :=
  match method_name with
  | "length" => .ok (.Int (Int.ofNat s.utf8ByteSize))
  | "toUpper" => .ok (.String s.toUpper)
  | "toLower" => .ok (.String s.toLower)
  | "trim" => .ok (.String s.trim)
  | "split" =>
    match args with
    | [arg] =>
      match arg with
      | .String delim => .ok (.Array ((splitOnStr s delim).map (fun part => Value.String part)))
      | _ => .error ("split argument must be a string")
    | _ => .error ("split requires one argument")
  | _ => .error (("String method ") ++ apos ++ method_name ++ apos ++ (" not supported"))

/-- handle_array_method (environment/mod.rs): push and pop write the updated
array back through Environment::assign under the receiver's variable name. -/
def handle_array_method (arr : List Value) (method_name : String) (args : List Value)
    (env : Option Environment) (variable_name : Option String) :
    Except String Value × Option Environment :=
  match method_name with
  | "length" => (.ok (.Int (Int.ofNat arr.length)), env)
  | "first" =>
    match arr.head? with
    | some first => (.ok first, env)
    | none => (.error ("Array is empty"), env)
  | "last" =>
    match arr.getLast? with
    | some last => (.ok last, env)
    | none => (.error ("Array is empty"), env)
  | "push" =>
    match args with
    | [arg] =>
      match env with
      | some env0 =>
        match variable_name with
        | some var_name =>
          let new_arr := arr ++ [arg]
          match Environment.assign env0 var_name (Value.Array new_arr) with
          | .ok env2 => (.ok (.Array new_arr), some env2)
          | .error e => (.error (("Failed to update array: ") ++ e), some env0)
        | none => (.error ("push requires a variable name to update the original array"), some env0)
      | none => (.error ("push requires an environment to update the original array"), none)
    | _ => (.error ("push requires exactly one argument"), env)
  | "pop" =>
    match arr.getLast? with
    | some popped =>
      let new_arr := arr.dropLast
      match env with
      | some env0 =>
        match variable_name with
        | some var_name =>
          match Environment.assign env0 var_name (Value.Array new_arr) with
          | .ok env2 => (.ok popped, some env2)
          | .error e => (.error (("Failed to update array: ") ++ e), some env0)
        | none => (.ok popped, some env0)
      | none => (.ok popped, none)
    | none => (.error ("Array is empty"), env)
  | "join" =>
    match args with
    | [arg] =>
      match arg with
      | .String delim =>
        (.ok (.String (String.intercalate delim (arr.map toDisplay))), env)
      | _ => (.error ("join argument must be a string"), env)
    | _ => (.error ("join requires one string argument"), env)
  | _ => (.error (("Array method ") ++ apos ++ method_name ++ apos ++ (" not supported")), env)

/-- The key filter of the keys branch of handle_object_method
(environment/mod.rs): keep string keys other than the synthetic __keys__. -/
def objKeysFilter (key : Value) : Option Value :=
  match key with
  | .String s => if s != ("__keys__") then some (Value.String s) else none
  | _ => none

/-- handle_object_method (environment/mod.rs): keys, values and entries read
the order recorded under __keys__ and filter that entry itself out; they never
iterate the underlying map. -/
def handle_object_method (obj : List (String × Value)) (method_name : String) (args : List Value) :
    Except String Value :=
  match method_name with
  | "keys" =>
    let keys := match hm_get obj ("__keys__") with
      | some (.Array ks) => ks
      | _ => []
    let ordered_keys := keys.filterMap objKeysFilter
    .ok (.Array ordered_keys)
  | "values" =>
    let keys := match hm_get obj ("__keys__") with
      | some (.Array ks) => ks
      | _ => []
    let ordered_values := keys.filterMap (fun key =>
      match key with
      | .String s => if s != ("__keys__") then hm_get obj s else none
      | _ => none)
    .ok (.Array ordered_values)
  | "entries" =>
    let keys := match hm_get obj ("__keys__") with
      | some (.Array ks) => ks
      | _ => []
    let entries := keys.filterMap (fun key =>
      match key with
      | .String s =>
        if s != ("__keys__") then
          match hm_get obj s with
          | some value => some (Value.Array [Value.String s, value])
          | none => none
        else none
      | _ => none)
    .ok (.Array entries)
  | "hasKey" =>
    match args with
    | [arg] =>
      match arg with
      | .String key => .ok (.Boolean (hm_contains obj key))
      | _ => .error ("hasKey argument must be a string")
    | _ => .error ("hasKey requires one string argument")
  | "get" =>
    match args with
    | [a1, a2] =>
      match a1 with
      | .String key => .ok ((hm_get obj key).getD a2)
      | _ => .error ("get first argument must be a string")
    | _ => .error ("get requires two arguments: key and default value")
  | _ => .error (("Object method ") ++ apos ++ method_name ++ apos ++ (" not supported"))

/-- handle_int_method (environment/mod.rs). -/
def handle_int_method (n : Int) (method_name : String) (_args : List Value) : Except String Value :=
  match method_name with
  | "isEven" => .ok (.Boolean (Int.tmod n 2 == 0))
  | "isOdd" => .ok (.Boolean (Int.tmod n 2 != 0))
  | _ => .error (("Integer method ") ++ apos ++ method_name ++ apos ++ (" not supported"))

/-- Rust f64 % (fmod): remainder with truncated quotient.  Lean Float has no
% operator; composed here from the available opaque float primitives (no claim
evaluates it). -/
def floatFmod (a b : Float) : Float :=
  if a / b < 0.0 then a - b * (0.0 - Float.floor (0.0 - a / b))
  else a - b * Float.floor (a / b)

/-- handle_float_method (environment/mod.rs). -/
def handle_float_method (n : Float) (method_name : String) (_args : List Value) : Except String Value :=
  match method_name with
  | "round" => .ok (.Int (floatCastI64 n.round))
  | "floor" => .ok (.Int (floatCastI64 n.floor))
  | "ceil" => .ok (.Int (floatCastI64 n.ceil))
  | "isEven" => .ok (.Boolean (floatFmod n 2.0 == 0.0))
  | "isOdd" => .ok (.Boolean (floatFmod n 2.0 != 0.0))
  | _ => .error (("Float method ") ++ apos ++ method_name ++ apos ++ (" not supported"))

/-- Value::call_method (environment/mod.rs), with the environment threaded
explicitly in place of the &mut reference.  The object branch first checks
for a native-function property; invoking a host callable is outside the
embedding and maps to an error (no claim exercises it). -/
def call_method (self : Value) (method_name : String) (args : List Value)
    (env : Option Environment) (variable_name : Option String) :
    Except String Value × Option Environment :=
  match self with
  | .String s => (handle_string_method s method_name args, env)
  | .Array arr => handle_array_method arr method_name args env variable_name
  | .Object obj =>
    match hm_get obj method_name with
    | some (.NativeFunction name) =>
      (.error (("native function call (host I/O) not modelled: ") ++ name), env)
    | _ => (handle_object_method obj method_name args, env)
  | .Int n => (handle_int_method n method_name args, env)
  | .Float n => (handle_float_method n method_name args, env)
  | _ => (.error (("Type ") ++ apos ++ type_name self ++ apos ++ (" does not support methods")), env)

/-- Environment::new_with_parent (environment/mod.rs): the parent is stored by
value (a clone of the caller's environment). -/
def Environment.new_with_parent (parent : Environment) : Environment :=
  .mk (some parent) [] []

/-- Evaluation outcome of a fuel-indexed run: the value or error together with
the environment as mutated so far (the Rust functions take &mut Environment),
or fuel exhaustion (a model artifact; the Rust recursion is unbounded). -/
inductive Res (α : Type) where
  | ok (a : α) (env : Environment)
  | err (e : ZekkenError) (env : Environment)
  | out

/-- evaluate_export (eval/statement.rs): re-declare each exported name; fail
on the first missing one. -/
def evaluate_export : List String → Location → Environment → Res (Option Value)
  | [], _, env => .ok none env
  | name :: rest, loc, env =>
    match env.lookup name with
    | some value => evaluate_export rest loc (env.declare name value false)
    | none =>
      .err (ZekkenError.runtime (("Cannot export undefined value ") ++ apos ++ name ++ apos)
        loc.line loc.column none) env

/-- Parameter binding loop of the user-function call path
(eval/expression.rs): declare each parameter in the fresh child scope. -/
def declareParams (params : List Param) (args : List Value) (env : Environment) : Environment :=
  (params.zip args).foldl (fun e pa => e.declare pa.1.ident pa.2 false) env

/-- The single child environment evaluate_for_object (eval/statement.rs)
creates before its loop: a child of a clone of the caller, the key binding
initialized to an empty string, and (unless the declared type is Any) a typed
dummy for the value binding. -/
def forObjectIterEnv (env : Environment) (kId vId : String) (t : DataType) : Environment :=
  let iter_env := Environment.new_with_parent env
  let iter_env := iter_env.declare kId (.String ("")) false
  match t with
  | .Any => iter_env
  | .String => iter_env.declare vId (.String ("")) false
  | .Int => iter_env.declare vId (.Int 0) false
  | .Float => iter_env.declare vId (.Float 0.0) false
  | .Bool => iter_env.declare vId (.Boolean false) false
  | .Object => iter_env.declare vId (.Object []) false
  | .Array => iter_env.declare vId (.Array []) false
  | .Fn => iter_env.declare vId (.Function (.mk [] [])) false

mutual

/-- evaluate_expression (eval/expression.rs): dispatch over the expression
forms.  Literals return directly; arrays and objects evaluate their parts in
order; identifiers look up the chain and fail with a Reference error naming
the variable. -/
def evaluate_expression : Nat → Expr → Environment → Res Value
  | 0, _, _ => .out
  | fuel+1, expr, env =>
    match expr with
    | .IntLit v _ => .ok (.Int v) env
    | .FloatLit v _ => .ok (.Float v) env
    | .StringLit s _ => .ok (.String s) env
    | .BoolLit b _ => .ok (.Boolean b) env
    | .ArrayLit elements _ =>
      match evalExprList fuel elements env with
      | .ok vs env2 => .ok (.Array vs) env2
      | .err e env2 => .err e env2
      | .out => .out
    | .ObjectLit properties _ =>
      match evalObjectProps fuel properties env [] with
      | .ok m env2 => .ok (.Object m) env2
      | .err e env2 => .err e env2
      | .out => .out
    | .Identifier name loc =>
      match env.lookup name with
      | some value => .ok value env
      | none =>
        .err (ZekkenError.reference (("Variable ") ++ apos ++ name ++ apos ++ (" not found"))
          name loc.line loc.column) env
    | .Binary left right operator loc =>
      evaluate_binary_expression fuel left right operator loc env
    | .Call callee args loc => evaluate_call_expression fuel callee args loc env
    | .Member object property _ loc => evaluate_member_expression fuel object property loc env
    | .Assign left right operator loc => evaluate_assignment fuel left right operator loc env
    | .PropertyExpr _ =>
      .err (ZekkenError.internal ("Property expression not supported in this context")) env

/-- evaluate_binary_expression (eval/expression.rs): both operands are always
evaluated first, then the mixed int/float guard fires, then the operator
dispatch (applyBinaryOp) runs with its per-operator error mapping. -/
def evaluate_binary_expression : Nat → Expr → Expr → String → Location → Environment → Res Value
  | 0, _, _, _, _, _ => .out
  | fuel+1, left, right, operator, loc, env =>
    match evaluate_expression fuel left env with
    | .ok leftV env2 =>
      match evaluate_expression fuel right env2 with
      | .ok rightV env3 =>
        if mixedIntFloat leftV rightV then
          .err (ZekkenError.type_error
            (("Cannot perform ") ++ apos ++ operator ++ apos ++ (" operation between int and float"))
            ("int or float") ("mixed types") loc.line loc.column) env3
        else
          match applyBinaryOp operator leftV rightV loc with
          | .ok v => .ok v env3
          | .error e => .err e env3
      | .err e env3 => .err e env3
      | .out => .out
    | .err e env2 => .err e env2
    | .out => .out

/-- evaluate_call_expression (eval/expression.rs).  Method-style calls on a
member callee evaluate the receiver, then the arguments, then dispatch through
call_method (capturing the receiver's variable name when it is a bare
identifier).  For a user function the arity check runs before the arguments
are evaluated; the body then runs in a child of a clone of the caller
environment, so callee-side mutations do not reach the caller. -/
def evaluate_call_expression : Nat → Expr → List Expr → Location → Environment → Res Value
  | 0, _, _, _, _ => .out
  | fuel+1, callee, args, loc, env =>
    match callee with
    | .Member mobject mproperty _ _ =>
      match evaluate_expression fuel mobject env with
      | .ok object env2 =>
        match mproperty with
        | .Identifier method_name _ =>
          match evalExprList fuel args env2 with
          | .ok argVals env3 =>
            let variable_name := match mobject with
              | .Identifier iname _ => some iname
              | _ => none
            match call_method object method_name argVals (some env3) variable_name with
            | (.ok v, some env4) => .ok v env4
            | (.ok v, none) => .ok v env3
            | (.error s, some env4) => .err (ZekkenError.runtime s loc.line loc.column none) env4
            | (.error s, none) => .err (ZekkenError.runtime s loc.line loc.column none) env3
          | .err e env3 => .err e env3
          | .out => .out
        | _ =>
          .err (ZekkenError.type_error ("Invalid method name") ("identifier") ("other")
            loc.line loc.column) env2
      | .err e env2 => .err e env2
      | .out => .out
    | _ =>
      match evaluate_expression fuel callee env with
      | .ok (.NativeFunction name) env2 =>
        match evalExprList fuel args env2 with
        | .ok _ env3 =>
          .err (ZekkenError.internal (("native function call (host I/O) not modelled: ") ++ name)) env3
        | .err e env3 => .err e env3
        | .out => .out
      | .ok (.Function func) env2 =>
        if args.length != func.params.length then
          .err (ZekkenError.runtime
            (("Expected ") ++ toString func.params.length ++ (" arguments but got ") ++ toString args.length)
            loc.line loc.column (some ("argument mismatch"))) env2
        else
          match evalExprList fuel args env2 with
          | .ok argVals env3 =>
            let function_env := Environment.new_with_parent env3
            let function_env := declareParams func.params argVals function_env
            match evalFuncBody fuel func.body function_env Value.Void with
            | .ok result _ => .ok result env3
            | .err e _ => .err e env3
            | .out => .out
          | .err e env3 => .err e env3
          | .out => .out
      | .ok _ env2 =>
        .err (ZekkenError.type_error ("Cannot call non-function value") ("function") ("non-function")
          loc.line loc.column) env2
      | .err e env2 => .err e env2
      | .out => .out

/-- evaluate_member_expression (eval/expression.rs): identifier and
string-literal properties read object entries; integer properties index arrays
(bounds-checked) or objects through the __keys__ order. -/
def evaluate_member_expression : Nat → Expr → Expr → Location → Environment → Res Value
  | 0, _, _, _, _ => .out
  | fuel+1, object, property, loc, env =>
    match evaluate_expression fuel object env with
    | .ok objV env2 =>
      match property with
      | .Identifier pname _ =>
        match objV with
        | .Object map =>
          match hm_get map pname with
          | some value => .ok value env2
          | none =>
            .err (ZekkenError.reference (("Property ") ++ apos ++ pname ++ apos ++ (" not found"))
              pname loc.line loc.column) env2
        | _ =>
          .err (ZekkenError.type_error ("Invalid member access") ("object") ("other")
            loc.line loc.column) env2
      | .StringLit pstr _ =>
        match objV with
        | .Object map =>
          match hm_get map pstr with
          | some value => .ok value env2
          | none =>
            .err (ZekkenError.reference (("Property ") ++ apos ++ pstr ++ apos ++ (" not found"))
              pstr loc.line loc.column) env2
        | _ =>
          .err (ZekkenError.type_error ("Invalid member access") ("object") ("other")
            loc.line loc.column) env2
      | .IntLit ival _ =>
        let idx := usizeOfInt ival
        match objV with
        | .Array arr =>
          match arr[idx]? with
          | some v => .ok v env2
          | none =>
            .err (ZekkenError.runtime (("Array index ") ++ toString idx ++ (" out of bounds"))
              loc.line loc.column none) env2
        | .Object map =>
          match hm_get map ("__keys__") with
          | some (.Array keys) =>
            match keys[idx]? with
            | some (.String key) =>
              match hm_get map key with
              | some value => .ok value env2
              | none =>
                .err (ZekkenError.reference (("Property ") ++ apos ++ key ++ apos ++ (" not found"))
                  key loc.line loc.column) env2
            | _ =>
              .err (ZekkenError.runtime (("Object index ") ++ toString idx ++ (" out of bounds"))
                loc.line loc.column none) env2
          | _ =>
            .err (ZekkenError.runtime ("Object does not support numeric indexing")
              loc.line loc.column none) env2
        | _ =>
          .err (ZekkenError.type_error ("Invalid member access") ("object/array") ("other")
            loc.line loc.column) env2
      | _ =>
        .err (ZekkenError.type_error ("Invalid property access") ("string/int/identifier") ("other")
          loc.line loc.column) env2
    | .err e env2 => .err e env2
    | .out => .out

/-- evaluate_assignment (eval/expression.rs).  Plain = evaluates the right
side then calls Environment::assign, wrapping any assign failure as a Runtime
error; compound operators look the target up first, apply the arithmetic
helper, and store the result back the same way. -/
def evaluate_assignment : Nat → Expr → Expr → String → Location → Environment → Res Value
  | 0, _, _, _, _, _ => .out
  | fuel+1, left, right, operator, loc, env =>
    match left with
    | .Identifier name _ =>
      if operator != ("=") then
        match env.lookup name with
        | none =>
          .err (ZekkenError.reference (("Variable ") ++ apos ++ name ++ apos ++ (" not found"))
            name loc.line loc.column) env
        | some left_val =>
          match evaluate_expression fuel right env with
          | .ok right_val env2 =>
            let result : Option (Except String Value) := match operator with
              | "+=" => some (add_values left_val right_val)
              | "-=" => some (subtract_values left_val right_val)
              | "*=" => some (multiply_values left_val right_val)
              | "/=" => some (divide_values left_val right_val)
              | "%=" => some (modulo_values left_val right_val)
              | _ => none
            match result with
            | none =>
              .err (ZekkenError.runtime (("Unknown operator: ") ++ operator)
                loc.line loc.column none) env2
            | some (.error msg) =>
              .err (ZekkenError.runtime msg loc.line loc.column none) env2
            | some (.ok value) =>
              match env2.assign name value with
              | .ok env3 => .ok value env3
              | .error msg => .err (ZekkenError.runtime msg loc.line loc.column none) env2
          | .err e env2 => .err e env2
          | .out => .out
      else
        match evaluate_expression fuel right env with
        | .ok value env2 =>
          match env2.assign name value with
          | .ok env3 => .ok value env3
          | .error msg => .err (ZekkenError.runtime msg loc.line loc.column none) env2
        | .err e env2 => .err e env2
        | .out => .out
    | _ =>
      .err (ZekkenError.type_error ("Invalid assignment target") ("identifier") ("other")
        loc.line loc.column) env

/-- The in-order argument/element evaluation loop shared by array literals,
call arguments and native-call arguments (eval/expression.rs). -/
def evalExprList : Nat → List Expr → Environment → Res (List Value)
  | 0, _, _ => .out
  | _+1, [], env => .ok [] env
  | fuel+1, e :: rest, env =>
    match evaluate_expression fuel e env with
    | .ok v env2 =>
      match evalExprList fuel rest env2 with
      | .ok vs env3 => .ok (v :: vs) env3
      | .err e2 env3 => .err e2 env3
      | .out => .out
    | .err e2 env2 => .err e2 env2
    | .out => .out

/-- The property loop of the ObjectLit arm of evaluate_expression
(eval/expression.rs): evaluate each property value in order and insert it
under its key. -/
def evalObjectProps : Nat → List Property → Environment → List (String × Value) →
    Res (List (String × Value))
  | 0, _, _, _ => .out
  | _+1, [], env, map => .ok map env
  | fuel+1, .mk key value _ :: rest, env, map =>
    match evaluate_expression fuel value env with
    | .ok v env2 => evalObjectProps fuel rest env2 (hm_insert map key v)
    | .err e env2 => .err e env2
    | .out => .out

/-- The property loop of evaluate_object_declaration (eval/statement.rs):
like an object literal, but failures are wrapped as Type errors naming the
property, and the key order is collected for the __keys__ entry. -/
def evalObjDeclProps : Nat → List Property → Environment → List (String × Value) →
    List String → Location → Res (List (String × Value) × List String)
  | 0, _, _, _, _, _ => .out
  | _+1, [], env, map, keys, _ => .ok (map, keys) env
  | fuel+1, .mk key value _ :: rest, env, map, keys, objLoc =>
    match evaluate_expression fuel value env with
    | .ok v env2 => evalObjDeclProps fuel rest env2 (hm_insert map key v) (keys ++ [key]) objLoc
    | .err e env2 =>
      .err (ZekkenError.type_error
        (("Failed to evaluate property ") ++ apos ++ key ++ apos ++ (": ") ++ errorDisplay e)
        ("object") ("property evaluation failed") objLoc.line objLoc.column) env2
    | .out => .out

/-- evaluate_statement (eval/statement.rs): statement dispatch.  Program,
use and include evaluation perform filesystem/library I/O and drive the
process-global error accumulator; they are outside the embedding and map to
an Internal error (no claim exercises them). -/
def evaluate_statement : Nat → Stmt → Environment → Res (Option Value)
  | 0, _, _ => .out
  | fuel+1, stmt, env =>
    match stmt with
    | .ProgramStmt _ _ _ =>
      .err (ZekkenError.internal ("program evaluation (two-pass lint, imports, global error accumulator) not modelled")) env
    | .VarDeclStmt v => evaluate_var_declaration fuel v env
    | .FuncDecl params ident body _ =>
      .ok none (env.declare ident (.Function (.mk params body)) false)
    | .ObjectDecl ident properties loc => evaluate_object_declaration fuel ident properties loc env
    | .IfStmt test body alt loc => evaluate_if_statement fuel test body alt loc env
    | .ForStmt init _ _ body loc => evaluate_for_statement fuel init body loc env
    | .WhileStmt test body loc => evaluate_while_statement fuel test body loc env none
    | .TryCatchStmt try_block catch_block _ => evaluate_try_catch fuel try_block catch_block env
    | .BlockStmt body _ => evaluate_block fuel body env
    | .UseStmt _ module _ =>
      .err (ZekkenError.internal (("use statement (library registry) not modelled: ") ++ module)) env
    | .IncludeStmt _ file_path _ =>
      .err (ZekkenError.internal (("include statement (filesystem I/O) not modelled: ") ++ file_path)) env
    | .ExportStmt exports loc => evaluate_export exports loc env
    | .ReturnStmt value _ => evaluate_return fuel value env
    | .Lambda constant ident params body _ =>
      .ok none (env.declare ident (.Function (.mk params body)) constant)

/-- evaluate_var_declaration (eval/statement.rs): evaluate the initializer,
reject a value that does not match the declared type with a Type error, then
declare into the current scope. -/
def evaluate_var_declaration : Nat → VarDecl → Environment → Res (Option Value)
  | 0, _, _ => .out
  | fuel+1, decl, env =>
    match decl.value with
    | some (.Expression expr) =>
      match evaluate_expression fuel expr env with
      | .ok val env2 =>
        if !check_value_type val decl.type_ then
          .err (ZekkenError.type_error
            (("Type mismatch in variable declaration ") ++ apos ++ decl.ident ++ apos)
            (dataTypeDebug decl.type_) (value_type_name val)
            decl.location.line decl.location.column) env2
        else
          .ok none (env2.declare decl.ident val decl.constant)
      | .err e env2 => .err e env2
      | .out => .out
    | some (.Statement stmt) =>
      match evaluate_statement fuel stmt env with
      | .ok (some val) env2 => .ok none (env2.declare decl.ident val decl.constant)
      | .ok none env2 => .ok none (env2.declare decl.ident Value.Void decl.constant)
      | .err e env2 => .err e env2
      | .out => .out
    | none => .ok none (env.declare decl.ident Value.Void decl.constant)

/-- evaluate_object_declaration (eval/statement.rs): evaluate the properties
in order, append the __keys__ order entry, declare the object. -/
def evaluate_object_declaration : Nat → String → List Property → Location → Environment →
    Res (Option Value)
  | 0, _, _, _, _ => .out
  | fuel+1, ident, properties, loc, env =>
    match evalObjDeclProps fuel properties env [] [] loc with
    | .ok (map, keys) env2 =>
      let map := hm_insert map ("__keys__") (.Array (keys.map (fun k => Value.String k)))
      .ok none (env2.declare ident (.Object map) false)
    | .err e env2 => .err e env2
    | .out => .out

/-- evaluate_if_statement (eval/statement.rs): the condition must be Boolean;
both branches run through evaluate_block_content in the same environment. -/
def evaluate_if_statement : Nat → Expr → List Content → Option (List Content) → Location →
    Environment → Res (Option Value)
  | 0, _, _, _, _, _ => .out
  | fuel+1, test, body, alt, loc, env =>
    match evaluate_expression fuel test env with
    | .ok (.Boolean true) env2 => evaluate_block_content fuel body env2
    | .ok (.Boolean false) env2 =>
      match alt with
      | some a => evaluate_block_content fuel a env2
      | none => .ok none env2
    | .ok other env2 =>
      .err (ZekkenError.type_error ("If statement condition must evaluate to a boolean")
        ("bool") (value_type_name other) loc.line loc.column) env2
    | .err e env2 => .err e env2
    | .out => .out

/-- evaluate_for_statement (eval/statement.rs): the init must be a VarDecl
whose initializer expression is evaluated once; the resulting collection must
be an Object or an Array. -/
def evaluate_for_statement : Nat → Option Stmt → List Content → Location → Environment →
    Res (Option Value)
  | 0, _, _, _, _ => .out
  | fuel+1, init, body, loc, env =>
    match init with
    | some (.VarDeclStmt var_decl) =>
      match var_decl.value with
      | some (.Expression expr) =>
        match evaluate_expression fuel expr env with
        | .ok collection env2 =>
          match collection with
          | .Object map => evaluate_for_object fuel map var_decl body env2
          | .Array arr => evaluate_for_array fuel arr var_decl body env2
          | other =>
            .err (ZekkenError.type_error ("For loop must iterate over an object or array")
              ("object or array") (value_type_name other) loc.line loc.column) env2
        | .err e env2 => .err e env2
        | .out => .out
      | some (.Statement _) =>
        .err (ZekkenError.runtime ("Expected expression in for loop initialization")
          loc.line loc.column (some ("for |x| in array { ... }"))) env
      | none =>
        .err (ZekkenError.runtime ("For loop initialization requires a value")
          loc.line loc.column none) env
    | some _ =>
      .err (ZekkenError.runtime ("For loop requires a variable declaration")
        loc.line loc.column none) env
    | none =>
      .err (ZekkenError.runtime ("For loop requires an initialization")
        loc.line loc.column none) env

/-- evaluate_for_object (eval/statement.rs): requires exactly two comma-joined
identifiers; reads the iteration order from __keys__; creates ONE child
environment before the loop, declares typed dummies, then per iteration
type-checks the value (unless the declared type is Any) and re-declares the
key and value bindings in that child environment.  The caller's environment is
only cloned into the child's parent and is returned unchanged. -/
def evaluate_for_object : Nat → List (String × Value) → VarDecl → List Content → Environment →
    Res (Option Value)
  | 0, _, _, _, _ => .out
  | fuel+1, map, var_decl, body, env =>
    match splitIdents var_decl.ident with
    | [kId, vId] =>
      match hm_get map ("__keys__") with
      | some (.Array keys) =>
        match evalForObjectIter fuel keys map var_decl kId vId body
            (forObjectIterEnv env kId vId var_decl.type_) with
        | .ok _ _ => .ok none env
        | .err e _ => .err e env
        | .out => .out
      | _ =>
        .err (ZekkenError.type_error ("Object missing key order") ("array") ("missing")
          var_decl.location.line var_decl.location.column) env
    | _ =>
      .err (ZekkenError.syntaxErr ("Object iteration requires two identifiers (key, value)")
        var_decl.location.line var_decl.location.column none none) env

/-- Per-key iteration loop of evaluate_for_object (eval/statement.rs):
non-string recorded keys and keys missing from the map are skipped; a value
failing the declared-type check aborts with a Type error. -/
def evalForObjectIter : Nat → List Value → List (String × Value) → VarDecl → String → String →
    List Content → Environment → Res Unit
  | 0, _, _, _, _, _, _, _ => .out
  | _+1, [], _, _, _, _, _, iter_env => .ok () iter_env
  | fuel+1, key_val :: keys, map, var_decl, kId, vId, body, iter_env =>
    match key_val with
    | .String key =>
      match hm_get map key with
      | some value =>
        if var_decl.type_ != DataType.Any && !check_value_type value var_decl.type_ then
          .err (ZekkenError.type_error
            (("Type mismatch in for loop value: expected ") ++ dataTypeDebug var_decl.type_ ++
              (", found ") ++ value_type_name value)
            (dataTypeDebug var_decl.type_) (value_type_name value)
            var_decl.location.line var_decl.location.column) iter_env
        else
          let iter_env := iter_env.declare kId (.String key) false
          let iter_env := iter_env.declare vId value false
          match evaluate_block_content fuel body iter_env with
          | .ok _ iter_env2 => evalForObjectIter fuel keys map var_decl kId vId body iter_env2
          | .err e iter_env2 => .err e iter_env2
          | .out => .out
      | none => evalForObjectIter fuel keys map var_decl kId vId body iter_env
    | _ => evalForObjectIter fuel keys map var_decl kId vId body iter_env

/-- evaluate_for_array (eval/statement.rs): requires exactly one identifier.
There is NO child environment and NO element type check: each element is
declared directly into the caller's environment and the body runs there. -/
def evaluate_for_array : Nat → List Value → VarDecl → List Content → Environment →
    Res (Option Value)
  | 0, _, _, _, _ => .out
  | fuel+1, arr, var_decl, body, env =>
    match splitIdents var_decl.ident with
    | [ident1] => evalForArrayIter fuel arr ident1 body env
    | _ =>
      .err (ZekkenError.syntaxErr ("Array iteration requires one identifier")
        var_decl.location.line var_decl.location.column none none) env

/-- Per-element iteration loop of evaluate_for_array (eval/statement.rs),
threading the caller's environment through every iteration. -/
def evalForArrayIter : Nat → List Value → String → List Content → Environment →
    Res (Option Value)
  | 0, _, _, _, _ => .out
  | _+1, [], _, _, env => .ok none env
  | fuel+1, value :: rest, ident1, body, env =>
    let env := env.declare ident1 value false
    match evaluate_block_content fuel body env with
    | .ok _ env2 => evalForArrayIter fuel rest ident1 body env2
    | .err e env2 => .err e env2
    | .out => .out

/-- evaluate_while_statement (eval/statement.rs): the source's local `result`
accumulator is the last parameter (the dispatch passes None); each loop
iteration re-evaluates the condition, which must be Boolean. -/
def evaluate_while_statement : Nat → Expr → List Content → Location → Environment →
    Option Value → Res (Option Value)
  | 0, _, _, _, _, _ => .out
  | fuel+1, test, body, loc, env, result =>
    match evaluate_expression fuel test env with
    | .ok (.Boolean true) env2 =>
      match whileBodyLoop fuel body env2 result with
      | .ok result2 env3 => evaluate_while_statement fuel test body loc env3 result2
      | .err e env3 => .err e env3
      | .out => .out
    | .ok (.Boolean false) env2 => .ok result env2
    | .ok other env2 =>
      .err (ZekkenError.type_error ("While loop condition must evaluate to a boolean")
        ("bool") (value_type_name other) loc.line loc.column) env2
    | .err e env2 => .err e env2
    | .out => .out

/-- The body loop inside evaluate_while_statement (eval/statement.rs). -/
def whileBodyLoop : Nat → List Content → Environment → Option Value → Res (Option Value)
  | 0, _, _, _ => .out
  | _+1, [], env, result => .ok result env
  | fuel+1, c :: rest, env, result =>
    match c with
    | .Statement s =>
      match evaluate_statement fuel s env with
      | .ok r env2 => whileBodyLoop fuel rest env2 r
      | .err e env2 => .err e env2
      | .out => .out
    | .Expression e =>
      match evaluate_expression fuel e env with
      | .ok v env2 => whileBodyLoop fuel rest env2 (some v)
      | .err e2 env2 => .err e2 env2
      | .out => .out

/-- evaluate_try_catch (eval/statement.rs): on an error from the try block a
child environment of a clone of the current environment binds `e` to an error
object (message, kind, line, column, __zekken_error__) and the catch block
runs there; its result is the statement's result, and the caller's own
environment keeps only the try block's mutations. -/
def evaluate_try_catch : Nat → List Content → Option (List Content) → Environment →
    Res (Option Value)
  | 0, _, _, _ => .out
  | fuel+1, try_block, catch_block, env =>
    match evaluate_block_content fuel try_block env with
    | .ok value env2 => .ok value env2
    | .err error env2 =>
      match catch_block with
      | some cb =>
        let err_obj : List (String × Value) := []
        let err_obj := hm_insert err_obj ("message") (.String error.message)
        let err_obj := hm_insert err_obj ("kind") (.String (errorKindDebug error.kind))
        let err_obj := hm_insert err_obj ("line") (.Int (Int.ofNat error.context.line))
        let err_obj := hm_insert err_obj ("column") (.Int (Int.ofNat error.context.column))
        let err_obj := hm_insert err_obj ("__zekken_error__") (.String (errorDisplay error))
        let catch_env := Environment.new_with_parent env2
        let catch_env := catch_env.declare ("e") (.Object err_obj) false
        match evaluate_block_content fuel cb catch_env with
        | .ok v _ => .ok v env2
        | .err e2 _ => .err e2 env2
        | .out => .out
      | none => .err error env2
    | .out => .out

/-- evaluate_block (eval/statement.rs): delegates to evaluate_block_content in
the SAME environment (no child scope is created for a block). -/
def evaluate_block : Nat → List Content → Environment → Res (Option Value)
  | 0, _, _ => .out
  | fuel+1, body, env => evaluate_block_content fuel body env

/-- evaluate_block_content (eval/statement.rs): runs every content element in
the given environment and returns the last element's result. -/
def evaluate_block_content : Nat → List Content → Environment → Res (Option Value)
  | 0, _, _ => .out
  | fuel+1, content, env => contentLoop fuel content env none

/-- The statement/expression loop of evaluate_block_content
(eval/statement.rs), carrying the running result. -/
def contentLoop : Nat → List Content → Environment → Option Value → Res (Option Value)
  | 0, _, _, _ => .out
  | _+1, [], env, result => .ok result env
  | fuel+1, c :: rest, env, result =>
    match c with
    | .Statement s =>
      match evaluate_statement fuel s env with
      | .ok r env2 => contentLoop fuel rest env2 r
      | .err e env2 => .err e env2
      | .out => .out
    | .Expression e =>
      match evaluate_expression fuel e env with
      | .ok v env2 => contentLoop fuel rest env2 (some v)
      | .err e2 env2 => .err e2 env2
      | .out => .out

/-- evaluate_return (eval/statement.rs): evaluate the operand (Void when
absent) and wrap it as Some. -/
def evaluate_return : Nat → Option Content → Environment → Res (Option Value)
  | 0, _, _ => .out
  | fuel+1, value, env =>
    match value with
    | some (.Expression expr) =>
      match evaluate_expression fuel expr env with
      | .ok v env2 => .ok (some v) env2
      | .err e env2 => .err e env2
      | .out => .out
    | some (.Statement stmt) => evaluate_statement fuel stmt env
    | none => .ok (some Value.Void) env

/-- The function-body loop of the user-function call path
(eval/expression.rs): expression results update the running result and
expression errors propagate, but a statement ERROR is silently swallowed
(only Ok(Some(v)) updates the result). -/
def evalFuncBody : Nat → List Content → Environment → Value → Res Value
  | 0, _, _, _ => .out
  | _+1, [], fenv, result => .ok result fenv
  | fuel+1, c :: rest, fenv, result =>
    match c with
    | .Expression e =>
      match evaluate_expression fuel e fenv with
      | .ok v fenv2 => evalFuncBody fuel rest fenv2 v
      | .err e2 fenv2 => .err e2 fenv2
      | .out => .out
    | .Statement s =>
      match evaluate_statement fuel s fenv with
      | .ok (some val) fenv2 => evalFuncBody fuel rest fenv2 val
      | .ok none fenv2 => evalFuncBody fuel rest fenv2 result
      | .err _ fenv2 => evalFuncBody fuel rest fenv2 result
      | .out => .out

end

/-- Arithmetic operator tokens (lexer/mod.rs ArithOp). -/
inductive ArithOp where
  | Add
  | Sub
  | Mul
  | Div
  | Mod
deriving DecidableEq, Repr

/-- Comparison/logical operator tokens (lexer/mod.rs BinOp). -/
inductive BinOp where
  | And
  | Or
  | Not
  | Eq
  | Neq
  | Less
  | Greater
  | LessEq
  | GreaterEq
deriving DecidableEq, Repr

/-- Assignment operator tokens (lexer/mod.rs AssignOp). -/
inductive AssignOp where
  | Assign
  | AddAssign
  | SubAssign
  | MulAssign
  | DivAssign
  | ModAssign
deriving DecidableEq, Repr

/-- Token kinds (lexer/mod.rs TokenType). -/
inductive TokenType where
  | Int
  | Float
  | Identifier
  | String
  | Boolean (b : Bool)
  | DataType (t : DataType)
  | Let
  | Const
  | Func
  | If
  | Else
  | For
  | While
  | Use
  | Include
  | Export
  | In
  | From
  | Return
  | Try
  | Catch
  | At
  | Comma
  | Colon
  | Semicolon
  | Dot
  | OpenParen
  | CloseParen
  | OpenBrace
  | CloseBrace
  | OpenBracket
  | CloseBracket
  | SingleQuote
  | DoubleQuote
  | ArithOp (op : ArithOp)
  | BinOp (op : BinOp)
  | AssignOp (op : AssignOp)
  | ThinArrow
  | FatArrow
  | Pipe
  | Ampersand
  | SingleLineComment
  | MultiLineComment
  | Undefined
  | EOF
deriving DecidableEq, Repr

/-- Lexer token (lexer/mod.rs Token). -/
structure Token where
  value : String
  kind : TokenType
  line : Nat
  column : Nat
  length : Nat
deriving DecidableEq, Repr

/-- Token::new (lexer/mod.rs): length is value.len(), the UTF-8 byte count. -/
def Token.new (value : String) (kind : TokenType) (line column : Nat) : Token :=
  { value := value, kind := kind, line := line, column := column, length := value.utf8ByteSize }

/-- Token::with_length (lexer/mod.rs). -/
def Token.with_length (t : Token) (length : Nat) : Token := { t with length := length }

/-- Token::location (lexer/mod.rs). -/
def Token.location (t : Token) : Location := { line := t.line, column := t.column }

/-- Debug rendering of ArithOp, Rust format!("{:?}", op). -/
def arithOpDebug : ArithOp → String
  | .Add => "Add"
  | .Sub => "Sub"
  | .Mul => "Mul"
  | .Div => "Div"
  | .Mod => "Mod"

/-- Debug rendering of BinOp. -/
def binOpDebug : BinOp → String
  | .And => "And"
  | .Or => "Or"
  | .Not => "Not"
  | .Eq => "Eq"
  | .Neq => "Neq"
  | .Less => "Less"
  | .Greater => "Greater"
  | .LessEq => "LessEq"
  | .GreaterEq => "GreaterEq"

/-- Debug rendering of AssignOp. -/
def assignOpDebug : AssignOp → String
  | .Assign => "Assign"
  | .AddAssign => "AddAssign"
  | .SubAssign => "SubAssign"
  | .MulAssign => "MulAssign"
  | .DivAssign => "DivAssign"
  | .ModAssign => "ModAssign"

/-- Debug rendering of TokenType, Rust format!("{:?}", kind), used in the
expected/found payloads of parser syntax errors. -/
def tokenTypeDebug : TokenType → String
  | .Int => "Int"
  | .Float => "Float"
  | .Identifier => "Identifier"
  | .String => "String"
  | .Boolean b => ("Boolean(") ++ (if b then "true" else "false") ++ (")")
  | .DataType t => ("DataType(") ++ dataTypeDebug t ++ (")")
  | .Let => "Let"
  | .Const => "Const"
  | .Func => "Func"
  | .If => "If"
  | .Else => "Else"
  | .For => "For"
  | .While => "While"
  | .Use => "Use"
  | .Include => "Include"
  | .Export => "Export"
  | .In => "In"
  | .From => "From"
  | .Return => "Return"
  | .Try => "Try"
  | .Catch => "Catch"
  | .At => "At"
  | .Comma => "Comma"
  | .Colon => "Colon"
  | .Semicolon => "Semicolon"
  | .Dot => "Dot"
  | .OpenParen => "OpenParen"
  | .CloseParen => "CloseParen"
  | .OpenBrace => "OpenBrace"
  | .CloseBrace => "CloseBrace"
  | .OpenBracket => "OpenBracket"
  | .CloseBracket => "CloseBracket"
  | .SingleQuote => "SingleQuote"
  | .DoubleQuote => "DoubleQuote"
  | .ArithOp op => ("ArithOp(") ++ arithOpDebug op ++ (")")
  | .BinOp op => ("BinOp(") ++ binOpDebug op ++ (")")
  | .AssignOp op => ("AssignOp(") ++ assignOpDebug op ++ (")")
  | .ThinArrow => "ThinArrow"
  | .FatArrow => "FatArrow"
  | .Pipe => "Pipe"
  | .Ampersand => "Ampersand"
  | .SingleLineComment => "SingleLineComment"
  | .MultiLineComment => "MultiLineComment"
  | .Undefined => "Undefined"
  | .EOF => "EOF"

/-- Parser state (parser/mod.rs Parser): the token vector and the cursor; the
source_lines field only feeds diagnostics and is omitted. -/
structure ParserState where
  tokens : List Token
  current : Nat
deriving DecidableEq, Repr

/-- Parser::at (parser/mod.rs) indexes tokens[current]; the token list ends
with the lexer's EOF sentinel and the parser never advances past it, so the
out-of-range default (an EOF token) is unreachable for lexer-produced input. -/
def ParserState.at_ (st : ParserState) : Token :=
  st.tokens.getD st.current (Token.new ("") TokenType.EOF 0 0)

/-- Parser::not_eof (parser/mod.rs). -/
def ParserState.not_eof (st : ParserState) : Bool :=
  st.current < st.tokens.length && (st.at_).kind != TokenType.EOF

/-- Parser::consume (parser/mod.rs): advance only when not at EOF. -/
def ParserState.consume (st : ParserState) : ParserState :=
  if st.not_eof then { st with current := st.current + 1 } else st

/-- Outcome of a parser routine.  The source's expect prints its error and
calls std::process::exit(1): that is the `exited` outcome.  Several parser
routines panic! on unexpected shapes: the `panicked` outcome.  `out` is fuel
exhaustion (model artifact). -/
inductive PRes (α : Type) where
  | ok (a : α) (st : ParserState)
  | exited (code : Nat) (err : ZekkenError)
  | panicked (msg : String)
  | out
deriving DecidableEq, Repr

/-- Parser::expect (parser/mod.rs): on a kind mismatch it builds a structured
Syntax error with expected and found payloads, prints it to stderr, and
terminates the whole process with exit code 1.  There is no error list on the
parser and no recovery.  On a match it consumes and returns the token. -/
def Parser.expect (st : ParserState) (type_ : TokenType) (err : String) : PRes Token :=
  let token := st.at_
  if token.kind != type_ then
    let expected := tokenTypeDebug type_
    let found := if token.kind == TokenType.EOF then ("End Of File")
      else tokenTypeDebug token.kind ++ (" (") ++ token.value ++ (")")
    PRes.exited 1 (ZekkenError.syntaxErr err token.line token.column (some expected) (some found))
  else
    PRes.ok token st.consume

/-- Parser::get_infix_precedence (parser/mod.rs). -/
def get_infix_precedence (st : ParserState) : Option Nat :=
  match (st.at_).kind with
  | .ArithOp op =>
    some (match op with
      | .Add => 10
      | .Sub => 10
      | .Mul => 20
      | .Div => 20
      | .Mod => 20)
  | .BinOp op =>
    some (match op with
      | .And => 5
      | .Or => 5
      | .Eq => 7
      | .Neq => 7
      | .Less => 7
      | .Greater => 7
      | .LessEq => 7
      | .GreaterEq => 7
      | _ => 0)
  | .AssignOp _ => some 2
  | _ => none

/-- Parser::operator_string_from_token (parser/mod.rs); note every AssignOp
maps to "=" here (the assignment arm of parse_expression builds its own
operator string and never uses this). -/
def operator_string_from_token (token : Token) : String :=
  match token.kind with
  | .ArithOp op =>
    (match op with
      | .Add => "+"
      | .Sub => "-"
      | .Mul => "*"
      | .Div => "/"
      | .Mod => "%")
  | .BinOp op =>
    (match op with
      | .And => "&&"
      | .Or => "||"
      | .Eq => "=="
      | .Neq => "!="
      | .Less => "<"
      | .Greater => ">"
      | .LessEq => "<="
      | .GreaterEq => ">="
      | .Not => "")
  | .AssignOp _ => "="
  | _ => ""

/-- Decimal digit string to Nat, modelling the digit loop of
str::parse (i64 range overflow is not modelled). -/
def decToNatAux : List Char → Nat → Option Nat
  | [], acc => some acc
  | c :: rest, acc =>
    if c.isDigit then decToNatAux rest (acc * 10 + (c.toNat - 48))
    else none

/-- str::parse::<i64> model on token text: optional minus, then digits. -/
def parseIntStr (s : String) : Option Int :=
  match s.data with
  | [] => none
  | c :: rest =>
    if c == ('-' : Char) then
      match rest with
      | [] => none
      | _ => (decToNatAux rest 0).map (fun n => -(Int.ofNat n))
    else (decToNatAux s.data 0).map Int.ofNat

/-- str::parse::<f64> model on the lexer's Float token text: digits, one dot,
digits, mapped through OfScientific.  Opaque to the kernel like all Float
construction; no claim evaluates a parsed float. -/
def parseFloatStr (s : String) : Option Float :=
  match s.split (fun c => c == ('.' : Char)) with
  | [intPart, fracPart] =>
    match decToNatAux intPart.data 0, decToNatAux fracPart.data 0 with
    | some ip, some fp =>
      some (OfScientific.ofScientific (ip * 10 ^ fracPart.length + fp) true fracPart.length)
    | _, _ => none
  | [onlyPart] => (decToNatAux onlyPart.data 0).map (fun n => OfScientific.ofScientific n false 0)
  | _ => none

/-- Helper for the source's single-quoted fragments inside messages. -/
def q1 (s : String) : String := apos ++ s ++ apos

mutual

/-- Parser::parse_expression (parser/mod.rs): Pratt precedence climbing; a
prefix form followed by the member/assignment/infix loop. -/
def parse_expression : Nat → Nat → ParserState → PRes Content
  | 0, _, _ => .out
  | fuel+1, min_prec, st =>
    match parse_prefix_form fuel st with
    | .ok left st2 => parseExprLoop fuel min_prec left st2
    | .exited c e => .exited c e
    | .panicked m => .panicked m
    | .out => .out

/-- The loop of Parser::parse_expression (parser/mod.rs): member access,
assignment operators (right-associative, returning immediately), then infix
operators at or above min_prec. -/
def parseExprLoop : Nat → Nat → Content → ParserState → PRes Content
  | 0, _, _, _ => .out
  | fuel+1, min_prec, left, st =>
    if (st.at_).kind == TokenType.Dot then
      let st1 := st.consume
      match Parser.expect st1 TokenType.Identifier (("Expected property identifier after ") ++ q1 (".")) with
      | .ok ident_token st2 =>
        let is_method := (st2.at_).kind == TokenType.FatArrow
        match left with
        | .Expression expr =>
          let member_expr := Expr.Member expr
            (.Identifier ident_token.value ident_token.location) is_method ident_token.location
          parseExprLoop fuel min_prec (.Expression member_expr) st2
        | _ => .panicked ("Expected expression")
      | .exited c e => .exited c e
      | .panicked m => .panicked m
      | .out => .out
    else
      match (st.at_).kind with
      | .AssignOp aop =>
        let operator := match aop with
          | .Assign => "="
          | .AddAssign => "+="
          | .SubAssign => "-="
          | .MulAssign => "*="
          | .DivAssign => "/="
          | .ModAssign => "%="
        let st1 := st.consume
        match parse_expression fuel 0 st1 with
        | .ok right st2 =>
          match left, right with
          | .Expression le, .Expression re =>
            .ok (.Expression (.Assign le re operator (st2.at_).location)) st2
          | _, _ => .panicked ("Expected expression")
        | .exited c e => .exited c e
        | .panicked m => .panicked m
        | .out => .out
      | _ =>
        match get_infix_precedence st with
        | some op_prec =>
          if op_prec < min_prec then .ok left st
          else
            let op_token := st.at_
            let st1 := st.consume
            match parse_expression fuel (op_prec + 1) st1 with
            | .ok right st2 =>
              match left, right with
              | .Expression le, .Expression re =>
                parseExprLoop fuel min_prec
                  (.Expression (.Binary le re (operator_string_from_token op_token) op_token.location)) st2
              | _, _ => .panicked ("Expected expression")
            | .exited c e => .exited c e
            | .panicked m => .panicked m
            | .out => .out
        | none => .ok left st

/-- Parser::parse_prefix (parser/mod.rs).  The unary-minus arm desugars -e
into the binary expression (FloatLit 0.0) - e: the left operand is a FLOAT
zero, and both its location and the node's location are read from the current
token after the operand has been parsed. -/
def parse_prefix_form : Nat → ParserState → PRes Content
  | 0, _ => .out
  | fuel+1, st =>
    if (st.at_).kind == TokenType.ArithOp ArithOp.Sub then
      let st1 := st.consume
      match parse_prefix_form fuel st1 with
      | .ok c st2 =>
        match c with
        | .Expression e =>
          .ok (.Expression (.Binary (.FloatLit 0.0 (st2.at_).location) e ("-") (st2.at_).location)) st2
        | _ => .panicked (("Expected expression after ") ++ q1 ("-"))
      | .exited c e => .exited c e
      | .panicked m => .panicked m
      | .out => .out
    else if (st.at_).kind == TokenType.At then
      let st1 := st.consume
      match Parser.expect st1 TokenType.Identifier (("Expected identifier after ") ++ q1 ("@")) with
      | .ok ident_token st2 =>
        let ident := Expr.Identifier ident_token.value ident_token.location
        match Parser.expect st2 TokenType.FatArrow (("Expected ") ++ q1 ("=>") ++ (" after native function identifier")) with
        | .ok _ st3 =>
          match Parser.expect st3 TokenType.Pipe (("Expected ") ++ q1 ("|") ++ (" before native function arguments")) with
          | .ok _ st4 =>
            match (if (st4.at_).kind != TokenType.Pipe then nativeCallArgsLoop fuel [] st4 else .ok [] st4) with
            | .ok args st5 =>
              match Parser.expect st5 TokenType.Pipe (("Expected ") ++ q1 ("|") ++ (" after native function arguments")) with
              | .ok _ st6 =>
                .ok (.Expression (.Call ident args ident_token.location)) st6
              | .exited c e => .exited c e
              | .panicked m => .panicked m
              | .out => .out
            | .exited c e => .exited c e
            | .panicked m => .panicked m
            | .out => .out
          | .exited c e => .exited c e
          | .panicked m => .panicked m
          | .out => .out
        | .exited c e => .exited c e
        | .panicked m => .panicked m
        | .out => .out
      | .exited c e => .exited c e
      | .panicked m => .panicked m
      | .out => .out
    else
      match parsePrimary fuel st with
      | .ok expr st2 =>
        match prefixPostfixLoop fuel expr st2 with
        | .ok expr2 st3 =>
          if (st3.at_).kind == TokenType.FatArrow then
            let st4 := st3.consume
            match Parser.expect st4 TokenType.Pipe (("Expected ") ++ q1 ("|") ++ (" before function arguments")) with
            | .ok _ st5 =>
              match callArgsLoop fuel [] st5 with
              | .ok args st6 =>
                match Parser.expect st6 TokenType.Pipe (("Expected ") ++ q1 ("|") ++ (" after function arguments")) with
                | .ok _ st7 =>
                  match expr2 with
                  | .Expression e => .ok (.Expression (.Call e args (st7.at_).location)) st7
                  | _ => .panicked ("Expected expression as callee")
                | .exited c e => .exited c e
                | .panicked m => .panicked m
                | .out => .out
              | .exited c e => .exited c e
              | .panicked m => .panicked m
              | .out => .out
            | .exited c e => .exited c e
            | .panicked m => .panicked m
            | .out => .out
          else .ok expr2 st3
        | .exited c e => .exited c e
        | .panicked m => .panicked m
        | .out => .out
      | .exited c e => .exited c e
      | .panicked m => .panicked m
      | .out => .out

/-- The primary-expression match of Parser::parse_prefix (parser/mod.rs):
identifiers, literals, parenthesized expressions, object and array literals;
anything else builds a syntax error and panics with its rendering. -/
def parsePrimary : Nat → ParserState → PRes Content
  | 0, _ => .out
  | fuel+1, st =>
    match (st.at_).kind with
    | .Identifier =>
      match Parser.expect st TokenType.Identifier ("Expected identifier") with
      | .ok ident_token st2 =>
        .ok (.Expression (.Identifier ident_token.value ident_token.location)) st2
      | .exited c e => .exited c e
      | .panicked m => .panicked m
      | .out => .out
    | .Int =>
      match Parser.expect st TokenType.Int ("Expected integer literal") with
      | .ok int_lit st2 =>
        match parseIntStr int_lit.value with
        | some n => .ok (.Expression (.IntLit n int_lit.location)) st2
        | none => .panicked ("int literal parse failed (unwrap)")
      | .exited c e => .exited c e
      | .panicked m => .panicked m
      | .out => .out
    | .Float =>
      match Parser.expect st TokenType.Float ("Expected float literal") with
      | .ok float_lit st2 =>
        match parseFloatStr float_lit.value with
        | some x => .ok (.Expression (.FloatLit x float_lit.location)) st2
        | none => .panicked ("float literal parse failed (unwrap)")
      | .exited c e => .exited c e
      | .panicked m => .panicked m
      | .out => .out
    | .String =>
      match Parser.expect st TokenType.String ("Expected string literal") with
      | .ok string_token st2 =>
        .ok (.Expression (.StringLit string_token.value string_token.location)) st2
      | .exited c e => .exited c e
      | .panicked m => .panicked m
      | .out => .out
    | .Boolean value =>
      let token := st.at_
      let st1 := st.consume
      .ok (.Expression (.BoolLit value token.location)) st1
    | .OpenParen =>
      let st1 := st.consume
      match parse_expression fuel 0 st1 with
      | .ok expr st2 =>
        match Parser.expect st2 TokenType.CloseParen (("Expected ") ++ q1 (")") ++ (" after expression")) with
        | .ok _ st3 => .ok expr st3
        | .exited c e => .exited c e
        | .panicked m => .panicked m
        | .out => .out
      | .exited c e => .exited c e
      | .panicked m => .panicked m
      | .out => .out
    | .OpenBrace => parse_object_lit fuel st
    | .OpenBracket => parse_array_lit fuel st
    | _ =>
      let token := st.at_
      let error := ZekkenError.syntaxErr ("Unexpected token in expression") token.line token.column
        (some ("expression"))
        (some (tokenTypeDebug token.kind ++ (" (") ++ token.value ++ (")")))
      .panicked (errorDisplay error)

/-- The member-access/indexing loop after a primary in Parser::parse_prefix
(parser/mod.rs): dots build Member nodes with is_method set when a fat arrow
follows; brackets parse a computed index with is_method forced true and the
node located at the token after the closing bracket. -/
def prefixPostfixLoop : Nat → Content → ParserState → PRes Content
  | 0, _, _ => .out
  | fuel+1, expr, st =>
    if (st.at_).kind == TokenType.Dot then
      let st1 := st.consume
      match Parser.expect st1 TokenType.Identifier (("Expected property identifier after ") ++ q1 (".")) with
      | .ok ident_token st2 =>
        let is_method := (st2.at_).kind == TokenType.FatArrow
        match expr with
        | .Expression e =>
          prefixPostfixLoop fuel
            (.Expression (.Member e (.Identifier ident_token.value ident_token.location) is_method ident_token.location)) st2
        | _ => .panicked (("Expected expression before ") ++ q1 ("."))
      | .exited c e => .exited c e
      | .panicked m => .panicked m
      | .out => .out
    else if (st.at_).kind == TokenType.OpenBracket then
      let st1 := st.consume
      match parse_expression fuel 0 st1 with
      | .ok index st2 =>
        match Parser.expect st2 TokenType.CloseBracket (("Expected ") ++ q1 ("]") ++ (" after index")) with
        | .ok _ st3 =>
          match expr, index with
          | .Expression e, .Expression idx =>
            prefixPostfixLoop fuel (.Expression (.Member e idx true (st3.at_).location)) st3
          | .Expression _, _ => .panicked ("Expected expression for index")
          | _, _ => .panicked (("Expected expression before ") ++ q1 ("["))
        | .exited c e => .exited c e
        | .panicked m => .panicked m
        | .out => .out
      | .exited c e => .exited c e
      | .panicked m => .panicked m
      | .out => .out
    else .ok expr st

/-- The argument loop of the fat-arrow call form in Parser::parse_prefix
(parser/mod.rs). -/
def callArgsLoop : Nat → List Expr → ParserState → PRes (List Expr)
  | 0, _, _ => .out
  | fuel+1, args, st =>
    if (st.at_).kind != TokenType.Pipe then
      match parse_expression fuel 0 st with
      | .ok arg st2 =>
        match arg with
        | .Expression e =>
          if (st2.at_).kind == TokenType.Comma then callArgsLoop fuel (args ++ [e]) st2.consume
          else .ok (args ++ [e]) st2
        | _ => .panicked ("Expected expression in call arguments")
      | .exited c e => .exited c e
      | .panicked m => .panicked m
      | .out => .out
    else .ok args st

/-- The argument loop of the native-call form in Parser::parse_prefix
(parser/mod.rs): arguments are parsed with parse_expression_until stopping at
commas and pipes. -/
def nativeCallArgsLoop : Nat → List Expr → ParserState → PRes (List Expr)
  | 0, _, _ => .out
  | fuel+1, args, st =>
    match parse_expression_until fuel [TokenType.Comma, TokenType.Pipe] st with
    | .ok arg st2 =>
      match arg with
      | .Expression e =>
        if (st2.at_).kind == TokenType.Comma then nativeCallArgsLoop fuel (args ++ [e]) st2.consume
        else .ok (args ++ [e]) st2
      | _ => .panicked ("Expected expression in native function arguments")
    | .exited c e => .exited c e
    | .panicked m => .panicked m
    | .out => .out

/-- Parser::parse_expression_until (parser/mod.rs). -/
def parse_expression_until : Nat → List TokenType → ParserState → PRes Content
  | 0, _, _ => .out
  | fuel+1, stop_tokens, st =>
    match parse_prefix_form fuel st with
    | .ok expr st2 => parseUntilLoop fuel stop_tokens expr st2
    | .exited c e => .exited c e
    | .panicked m => .panicked m
    | .out => .out

/-- The loop of Parser::parse_expression_until (parser/mod.rs): stop tokens
first, then plain assignment, member access (is_method forced true) and infix
operators without a minimum-precedence cutoff. -/
def parseUntilLoop : Nat → List TokenType → Content → ParserState → PRes Content
  | 0, _, _, _ => .out
  | fuel+1, stop_tokens, expr, st =>
    if stop_tokens.any (fun t => (st.at_).kind == t) then .ok expr st
    else if (st.at_).kind == TokenType.AssignOp AssignOp.Assign then
      let st1 := st.consume
      match parse_expression fuel 0 st1 with
      | .ok right st2 =>
        match expr, right with
        | .Expression le, .Expression re =>
          .ok (.Expression (.Assign le re ("=") (st2.at_).location)) st2
        | _, _ => .panicked ("Expected expression")
      | .exited c e => .exited c e
      | .panicked m => .panicked m
      | .out => .out
    else if (st.at_).kind == TokenType.Dot then
      let st1 := st.consume
      match Parser.expect st1 TokenType.Identifier (("Expected property identifier after ") ++ q1 (".")) with
      | .ok ident_token st2 =>
        match expr with
        | .Expression e =>
          parseUntilLoop fuel stop_tokens
            (.Expression (.Member e (.Identifier ident_token.value ident_token.location) true ident_token.location)) st2
        | _ => .panicked (("Expected expression before ") ++ q1 ("."))
      | .exited c e => .exited c e
      | .panicked m => .panicked m
      | .out => .out
    else
      match get_infix_precedence st with
      | some op_prec =>
        let op_token := st.at_
        let st1 := st.consume
        match parse_expression fuel (op_prec + 1) st1 with
        | .ok right st2 =>
          match expr, right with
          | .Expression le, .Expression re =>
            parseUntilLoop fuel stop_tokens
              (.Expression (.Binary le re (operator_string_from_token op_token) op_token.location)) st2
          | _, _ => .panicked ("Expected expression")
        | .exited c e => .exited c e
        | .panicked m => .panicked m
        | .out => .out
      | none => .ok expr st

/-- Parser::parse_object_lit (parser/mod.rs). -/
def parse_object_lit : Nat → ParserState → PRes Content
  | 0, _ => .out
  | fuel+1, st =>
    let start_location := (st.at_).location
    match Parser.expect st TokenType.OpenBrace (("Expected ") ++ q1 ("\x7b") ++ (" to start object literal")) with
    | .ok _ st1 =>
      match parse_object_properties fuel st1 with
      | .ok properties st2 =>
        match Parser.expect st2 TokenType.CloseBrace (("Expected ") ++ q1 ("\x7d") ++ (" to end object literal")) with
        | .ok _ st3 => .ok (.Expression (.ObjectLit properties start_location)) st3
        | .exited c e => .exited c e
        | .panicked m => .panicked m
        | .out => .out
      | .exited c e => .exited c e
      | .panicked m => .panicked m
      | .out => .out
    | .exited c e => .exited c e
    | .panicked m => .panicked m
    | .out => .out

/-- Parser::parse_object_properties (parser/mod.rs): collects properties in
source order while recording the key order, then appends the synthetic
__keys__ property holding the ordered key array. -/
def parse_object_properties : Nat → ParserState → PRes (List Property)
  | 0, _ => .out
  | fuel+1, st =>
    match objPropsLoop fuel [] [] st with
    | .ok (properties, key_order) st2 =>
      .ok (properties ++
        [ Property.mk ("__keys__")
            (.ArrayLit (key_order.map (fun k => Expr.StringLit k (Location.mk 0 0))) (Location.mk 0 0))
            (Location.mk 0 0) ]) st2
    | .exited c e => .exited c e
    | .panicked m => .panicked m
    | .out => .out

/-- The property loop of Parser::parse_object_properties (parser/mod.rs). -/
def objPropsLoop : Nat → List Property → List String → ParserState →
    PRes (List Property × List String)
  | 0, _, _, _ => .out
  | fuel+1, properties, key_order, st =>
    if (st.at_).kind != TokenType.CloseBrace then
      let start_location := (st.at_).location
      match Parser.expect st TokenType.Identifier ("Expected property key") with
      | .ok key_token st1 =>
        match Parser.expect st1 TokenType.Colon (("Expected ") ++ q1 (":") ++ (" after property key")) with
        | .ok _ st2 =>
          match parse_expression fuel 0 st2 with
          | .ok value st3 =>
            match value with
            | .Expression ve =>
              let properties := properties ++ [Property.mk key_token.value ve start_location]
              let key_order := key_order ++ [key_token.value]
              if (st3.at_).kind == TokenType.Comma then
                objPropsLoop fuel properties key_order st3.consume
              else .ok (properties, key_order) st3
            | _ => .panicked ("Expected expression for property value")
          | .exited c e => .exited c e
          | .panicked m => .panicked m
          | .out => .out
        | .exited c e => .exited c e
        | .panicked m => .panicked m
        | .out => .out
      | .exited c e => .exited c e
      | .panicked m => .panicked m
      | .out => .out
    else .ok (properties, key_order) st

/-- Parser::parse_array_lit (parser/mod.rs). -/
def parse_array_lit : Nat → ParserState → PRes Content
  | 0, _ => .out
  | fuel+1, st =>
    let start_location := (st.at_).location
    match Parser.expect st TokenType.OpenBracket (("Expected ") ++ q1 ("[") ++ (" to start array literal")) with
    | .ok _ st1 =>
      match arrayElemsLoop fuel [] st1 with
      | .ok elements st2 =>
        match Parser.expect st2 TokenType.CloseBracket (("Expected ") ++ q1 ("]") ++ (" to end array literal")) with
        | .ok _ st3 => .ok (.Expression (.ArrayLit elements start_location)) st3
        | .exited c e => .exited c e
        | .panicked m => .panicked m
        | .out => .out
      | .exited c e => .exited c e
      | .panicked m => .panicked m
      | .out => .out
    | .exited c e => .exited c e
    | .panicked m => .panicked m
    | .out => .out

/-- The element loop of Parser::parse_array_elements (parser/mod.rs). -/
def arrayElemsLoop : Nat → List Expr → ParserState → PRes (List Expr)
  | 0, _, _ => .out
  | fuel+1, elements, st =>
    if (st.at_).kind != TokenType.CloseBracket then
      match parse_expression fuel 0 st with
      | .ok element st2 =>
        match element with
        | .Expression e =>
          if (st2.at_).kind == TokenType.Comma then
            arrayElemsLoop fuel (elements ++ [e]) st2.consume
          else .ok (elements ++ [e]) st2
        | _ => .panicked ("Expected expression for array element")
      | .exited c e => .exited c e
      | .panicked m => .panicked m
      | .out => .out
    else .ok elements st

end

/-- Keyword table (lexer/mod.rs KEYWORDS), in source order. -/
def KEYWORDS : List (String × TokenType) :=
  [ ("let", .Let), ("const", .Const), ("func", .Func), ("if", .If), ("else", .Else),
    ("for", .For), ("while", .While), ("use", .Use), ("include", .Include),
    ("export", .Export), ("in", .In), ("from", .From), ("return", .Return),
    ("try", .Try), ("catch", .Catch),
    ("int", .DataType .Int), ("float", .DataType .Float), ("string", .DataType .String),
    ("bool", .DataType .Bool), ("obj", .DataType .Object), ("arr", .DataType .Array),
    ("fn", .DataType .Fn), ("true", .Boolean true), ("false", .Boolean false) ]

/-- Punctuation/operator table (lexer/mod.rs TOKEN_CHAR), in source order (the
order matters for the linear searches below). -/
def TOKEN_CHAR : List (String × TokenType) :=
  [ ("@", .At), ("(", .OpenParen), (")", .CloseParen), ("\x7b", .OpenBrace),
    ("\x7d", .CloseBrace), ("[", .OpenBracket), ("]", .CloseBracket), (".", .Dot),
    (";", .Semicolon), (":", .Colon), (",", .Comma), ("|", .Pipe),
    ("->", .ThinArrow), ("=>", .FatArrow), ("&", .Ampersand),
    (String.mk [Char.ofNat 39], .SingleQuote), ("\"", .DoubleQuote),
    ("+", .ArithOp .Add), ("-", .ArithOp .Sub), ("*", .ArithOp .Mul),
    ("%", .ArithOp .Mod), ("/", .ArithOp .Div),
    ("=", .AssignOp .Assign), ("+=", .AssignOp .AddAssign), ("-=", .AssignOp .SubAssign),
    ("*=", .AssignOp .MulAssign), ("/=", .AssignOp .DivAssign), ("%=", .AssignOp .ModAssign),
    ("||", .BinOp .Or), ("!", .BinOp .Not), ("&&", .BinOp .And), ("==", .BinOp .Eq),
    ("!=", .BinOp .Neq), (">=", .BinOp .GreaterEq), ("<=", .BinOp .LessEq),
    (">", .BinOp .Greater), ("<", .BinOp .Less) ]

/-- The // line-comment scan of tokenize_char (lexer/mod.rs): collect to end
of line or end of input; every scanned character is collected, so the scanned
count is the content length. -/
def scanLineComment (src : List Char) (idx : Nat) : List Char :=
  if h : idx < src.length then
    let c := src.getD idx (Char.ofNat 0)
    if c != ('\n' : Char) then c :: scanLineComment src (idx + 1)
    else []
  else []
termination_by src.length - idx
decreasing_by omega

/-- The /* block-comment scan of tokenize_char (lexer/mod.rs): the loop runs
while idx < len - 1; the Bool reports whether the closing */ was found (which
consumes two further characters). -/
def scanBlockComment (src : List Char) (idx : Nat) : List Char × Bool :=
  if h : idx < src.length - 1 then
    if src.getD idx (Char.ofNat 0) == ('*' : Char) && src.getD (idx + 1) (Char.ofNat 0) == ('/' : Char) then
      ([], true)
    else
      let r := scanBlockComment src (idx + 1)
      (src.getD idx (Char.ofNat 0) :: r.1, r.2)
  else ([], false)
termination_by src.length - 1 - idx
decreasing_by omega

/-- The digit loop of parse_number (lexer/mod.rs): digits, with at most one
decimal point; the returned flag is is_integer after the scan. -/
def numLoop (src : List Char) (idx : Nat) (is_integer : Bool) : List Char × Bool :=
  if h : idx < src.length then
    let c := src.getD idx (Char.ofNat 0)
    if c.isDigit then
      let r := numLoop src (idx + 1) is_integer
      (c :: r.1, r.2)
    else if c == ('.' : Char) && is_integer then
      let r := numLoop src (idx + 1) false
      (c :: r.1, r.2)
    else ([], is_integer)
  else ([], is_integer)
termination_by src.length - idx
decreasing_by
  · omega
  · omega

/-- parse_number (lexer/mod.rs): optional leading minus, digits, optional
fraction; exactly one decimal point makes the token a Float. -/
def parse_number (src : List Char) (start line column : Nat) : Token :=
  if src.getD start (Char.ofNat 0) == ('-' : Char) then
    let r := numLoop src (start + 1) true
    Token.new (String.mk (('-' : Char) :: r.1)) (if r.2 then .Int else .Float) line column
  else
    let r := numLoop src start true
    Token.new (String.mk r.1) (if r.2 then .Int else .Float) line column

/-- The character loop of parse_string (lexer/mod.rs), from the position
after the opening quote.  The second component counts the characters the loop
consumed (including a closing quote).  In the escaped state the source maps
n, t and r to their control characters and passes every other character
through verbatim, which subsumes its identity arms for backslash and both
quotes. -/
def stringLoop (src : List Char) (quote : Char) (idx : Nat) (escaped : Bool) : List Char × Nat :=
  if h : idx < src.length then
    let c := src.getD idx (Char.ofNat 0)
    if escaped then
      let decoded := if c == ('n' : Char) then ('\n' : Char)
        else if c == ('t' : Char) then ('\t' : Char)
        else if c == ('r' : Char) then ('\r' : Char)
        else c
      let r := stringLoop src quote (idx + 1) false
      (decoded :: r.1, r.2 + 1)
    else if c == ('\\' : Char) then
      let r := stringLoop src quote (idx + 1) true
      (r.1, r.2 + 1)
    else if c == quote then ([], 1)
    else
      let r := stringLoop src quote (idx + 1) false
      (c :: r.1, r.2 + 1)
  else ([], 0)
termination_by src.length - idx
decreasing_by
  · omega
  · omega
  · omega

/-- parse_string (lexer/mod.rs): value is the decoded content, length is the
raw span including the opening quote and, when present, the closing quote. -/
def parse_string (src : List Char) (start line column : Nat) : Token :=
  let quote := src.getD start (Char.ofNat 0)
  let r := stringLoop src quote (start + 1) false
  (Token.new (String.mk r.1) .String line column).with_length (1 + r.2)

/-- The character loop of parse_identifier (lexer/mod.rs): alphanumerics and
underscores.  Rust uses the Unicode classes; this model uses the ASCII ones
(see the header note). -/
def identLoop (src : List Char) (idx : Nat) : List Char :=
  if h : idx < src.length then
    let c := src.getD idx (Char.ofNat 0)
    if c.isAlphanum || c == ('_' : Char) then c :: identLoop src (idx + 1)
    else []
  else []
termination_by src.length - idx
decreasing_by omega

/-- parse_identifier (lexer/mod.rs): collect the identifier, then map it
through the keyword table, defaulting to Identifier. -/
def parse_identifier (src : List Char) (start line column : Nat) : Token :=
  let ident := String.mk (identLoop src start)
  let token_type := ((KEYWORDS.find? (fun kv => kv.1 == ident)).map (fun kv => kv.2)).getD .Identifier
  Token.new ident token_type line column

/-- parse_operators (lexer/mod.rs): single-character operator tokens. -/
def parse_operators (line column : Nat) (cur : Char) : Option Token :=
  if cur == ('=' : Char) then some (Token.new ("=") (.AssignOp .Assign) line column)
  else if cur == ('!' : Char) then some (Token.new ("!") (.BinOp .Not) line column)
  else if cur == ('&' : Char) then some (Token.new ("&") .Ampersand line column)
  else if cur == ('|' : Char) then some (Token.new ("|") .Pipe line column)
  else if cur == ('+' : Char) then some (Token.new ("+") (.ArithOp .Add) line column)
  else if cur == ('-' : Char) then some (Token.new ("-") (.ArithOp .Sub) line column)
  else if cur == ('*' : Char) then some (Token.new ("*") (.ArithOp .Mul) line column)
  else if cur == ('/' : Char) then some (Token.new ("/") (.ArithOp .Div) line column)
  else if cur == ('%' : Char) then some (Token.new ("%") (.ArithOp .Mod) line column)
  else if cur == ('<' : Char) then some (Token.new ("<") (.BinOp .Less) line column)
  else if cur == ('>' : Char) then some (Token.new (">") (.BinOp .Greater) line column)
  else none

/-- The part of tokenize_char (lexer/mod.rs) after the comment handling:
two-character tokens, identifiers, operators, numbers, strings, then
single-character tokens; None when nothing matches. -/
def tokenizeCharRest (src : List Char) (start line column : Nat) (cur : Char) : Option (Token × Nat) :=
  match (if start + 1 < src.length then
      (if String.mk [cur, src.getD (start + 1) (Char.ofNat 0)] == ("//") ||
          String.mk [cur, src.getD (start + 1) (Char.ofNat 0)] == ("/*") then none
      else match TOKEN_CHAR.find? (fun kv => kv.1 == String.mk [cur, src.getD (start + 1) (Char.ofNat 0)]) with
        | some kv => some (Token.new kv.1 kv.2 line column, 2)
        | none => none)
    else none : Option (Token × Nat)) with
  | some r => some r
  | none =>
    if cur.isAlpha || cur == ('_' : Char) then
      let token := parse_identifier src start line column
      some (token, token.value.utf8ByteSize)
    else
      match parse_operators line column cur with
      | some token =>
        if cur == ('/' : Char) && start + 1 < src.length &&
            (src.getD (start + 1) (Char.ofNat 0) == ('/' : Char) ||
             src.getD (start + 1) (Char.ofNat 0) == ('*' : Char)) then
          none
        else some (token, 1)
      | none =>
        if cur.isDigit ||
            (cur == ('-' : Char) && start + 1 < src.length && (src.getD (start + 1) (Char.ofNat 0)).isDigit) then
          let token := parse_number src start line column
          some (token, token.value.utf8ByteSize)
        else if cur == ('"' : Char) || cur == (Char.ofNat 39) then
          let token := parse_string src start line column
          some (token, token.length)
        else
          match TOKEN_CHAR.find? (fun kv =>
            match kv.1.data with
            | [c] => c == cur
            | _ => false) with
          | some kv => some (Token.new kv.1 kv.2 line column, 1)
          | none => none

/-- tokenize_char (lexer/mod.rs): comments first, then the rest of the
dispatch (tokenizeCharRest). -/
def tokenize_char (src : List Char) (start line column : Nat) : Option (Token × Nat) :=
  if start ≥ src.length then none
  else
    if src.getD start (Char.ofNat 0) == ('/' : Char) && start + 1 < src.length then
      if src.getD (start + 1) (Char.ofNat 0) == ('/' : Char) then
        some ((Token.new (String.mk (scanLineComment src (start + 2))) .SingleLineComment line column).with_length
                (2 + (scanLineComment src (start + 2)).length),
              2 + (scanLineComment src (start + 2)).length)
      else if src.getD (start + 1) (Char.ofNat 0) == ('*' : Char) then
        some ((Token.new (String.mk (scanBlockComment src (start + 2)).1) .MultiLineComment line column).with_length
                (2 + (scanBlockComment src (start + 2)).1.length + (if (scanBlockComment src (start + 2)).2 then 2 else 0)),
              2 + (scanBlockComment src (start + 2)).1.length + (if (scanBlockComment src (start + 2)).2 then 2 else 0))
      else tokenizeCharRest src start line column (src.getD start (Char.ofNat 0))
    else tokenizeCharRest src start line column (src.getD start (Char.ofNat 0))




/-- The UTF-8 size of a nonempty string is positive. -/
theorem utf8ByteSize_mk_cons_pos (c : Char) (cs : List Char) :
    0 < (String.mk (c :: cs)).utf8ByteSize := by
  have h := Char.utf8Size_pos c
  simp [String.utf8ByteSize, String.utf8ByteSize.go]
  omega

/-- identLoop collects at least the guarded first character. -/
theorem identLoop_cons (src : List Char) (start : Nat) (h : start < src.length)
    (h2 : ((src.getD start (Char.ofNat 0)).isAlphanum || src.getD start (Char.ofNat 0) == ('_' : Char)) = true) :
    identLoop src start = src.getD start (Char.ofNat 0) :: identLoop src (start + 1) := by
  rw [identLoop]
  simp only [dif_pos h]
  split
  · rfl
  · rename_i hfalse
    exact absurd h2 hfalse

/-- numLoop collects at least the guarded first digit. -/
theorem numLoop_cons (src : List Char) (start : Nat) (h : start < src.length)
    (h2 : (src.getD start (Char.ofNat 0)).isDigit = true) :
    (numLoop src start true).1 = src.getD start (Char.ofNat 0) :: (numLoop src (start + 1) true).1 := by
  rw [numLoop]
  simp only [dif_pos h]
  split
  · rfl
  · rename_i hfalse
    exact absurd h2 hfalse

/-- Every emitted token of the dispatch tail consumes at least one character. -/
theorem tokenizeCharRest_pos (src : List Char) (start line column : Nat) (cur : Char) (t : Token) (n : Nat)
    (hlt : start < src.length)
    (hcur : cur = src.getD start (Char.ofNat 0))
    (h : tokenizeCharRest src start line column cur = some (t, n)) : 0 < n := by
  unfold tokenizeCharRest at h
  split at h
  · rename_i r heq
    simp only [Option.some.injEq] at h
    subst h
    split at heq
    · split at heq
      · simp at heq
      · split at heq
        · simp only [Option.some.injEq] at heq
          have := congrArg Prod.snd heq
          simp at this
          omega
        · simp at heq
    · simp at heq
  · split at h
    · rename_i hident
      simp only [Option.some.injEq, Prod.mk.injEq] at h
      have halnum : ((src.getD start (Char.ofNat 0)).isAlphanum ||
          src.getD start (Char.ofNat 0) == ('_' : Char)) = true := by
        rw [hcur] at hident
        simp only [Bool.or_eq_true] at hident ⊢
        cases hident with
        | inl ha =>
          refine Or.inl ?_
          have : Char.isAlphanum (src.getD start (Char.ofNat 0))
              = ((src.getD start (Char.ofNat 0)).isAlpha || (src.getD start (Char.ofNat 0)).isDigit) := rfl
          rw [this, ha]
          rfl
        | inr hu => exact Or.inr hu
      have hloop := identLoop_cons src start hlt halnum
      rw [← h.2]
      simp only [parse_identifier, Token.new, hloop]
      exact utf8ByteSize_mk_cons_pos _ _
    · split at h
      · split at h
        · simp at h
        · simp only [Option.some.injEq, Prod.mk.injEq] at h
          omega
      · split at h
        · rename_i hnum
          simp only [Option.some.injEq, Prod.mk.injEq] at h
          rw [← h.2]
          unfold parse_number
          split
          · simp only [Token.new]
            exact utf8ByteSize_mk_cons_pos _ _
          · rename_i hnotminus
            have hdig : (src.getD start (Char.ofNat 0)).isDigit = true := by
              rw [hcur] at hnum
              simp only [Bool.or_eq_true, Bool.and_eq_true, beq_iff_eq, decide_eq_true_eq] at hnum
              rcases hnum with hd2 | ⟨⟨hm, _⟩, _⟩
              · exact hd2
              · exact absurd hm (by simpa using hnotminus)
            have hloop := numLoop_cons src start hlt hdig
            simp only [Token.new, hloop]
            exact utf8ByteSize_mk_cons_pos _ _
        · split at h
          · simp only [Option.some.injEq, Prod.mk.injEq] at h
            rw [← h.2]
            simp [parse_string, Token.with_length, Token.new]
          · split at h
            · simp only [Option.some.injEq, Prod.mk.injEq] at h
              omega
            · simp at h

/-- The characters after the last newline of a token's text, modelling
value.rsplit-newline-next in tokenize (lexer/mod.rs); the column is set from
its byte length. -/
def afterLastNewline (cs : List Char) : List Char :=
  cs.foldl (fun acc c => if c == ('\n' : Char) then [] else acc ++ [c]) []

/-- Every token tokenize_char emits consumes at least one character; this is
what makes the scan loop of tokenize terminate. -/
theorem tokenize_char_pos (src : List Char) (start line column : Nat) (t : Token) (n : Nat)
    (h : tokenize_char src start line column = some (t, n)) : 0 < n := by
  unfold tokenize_char at h
  split at h
  · simp at h
  · rename_i hge
    split at h
    · split at h
      · simp only [Option.some.injEq, Prod.mk.injEq] at h
        omega
      · split at h
        · simp only [Option.some.injEq, Prod.mk.injEq] at h
          omega
        · exact tokenizeCharRest_pos src start line column _ t n (by omega) rfl h
    · exact tokenizeCharRest_pos src start line column _ t n (by omega) rfl h

/-- The scan loop of tokenize (lexer/mod.rs): newlines advance the line and
reset the column, other whitespace advances the column, recognized lexemes
advance by their consumed width (updating line and column across embedded
newlines), and characters no rule recognizes are skipped silently.  The final
line and column feed the EOF token. -/
def tokenizeLoop (src : List Char) (index line column : Nat) (tokens : List Token) :
    List Token × Nat × Nat :=
  if h : index < src.length then
    if src.getD index (Char.ofNat 0) == ('\n' : Char) then
      tokenizeLoop src (index + 1) (line + 1) 1 tokens
    else if (src.getD index (Char.ofNat 0)).isWhitespace &&
        src.getD index (Char.ofNat 0) != ('\n' : Char) then
      tokenizeLoop src (index + 1) line (column + 1) tokens
    else
      match h2 : tokenize_char src index line column with
      | some (token, consumed) =>
        if token.value.data.count ('\n' : Char) > 0 then
          tokenizeLoop src (index + consumed) (line + token.value.data.count ('\n' : Char))
            ((String.mk (afterLastNewline token.value.data)).utf8ByteSize + 1) (tokens ++ [token])
        else
          tokenizeLoop src (index + consumed) line (column + consumed) (tokens ++ [token])
      | none => tokenizeLoop src (index + 1) line (column + 1) tokens
  else (tokens, line, column)
termination_by src.length - index
decreasing_by
  · omega
  · omega
  · have := tokenize_char_pos src index line column token consumed h2
    omega
  · have := tokenize_char_pos src index line column token consumed h2
    omega
  · omega

/-- tokenize (lexer/mod.rs): run the scan loop over the characters and append
the EOF token carrying the final line and column. -/
def tokenize (source : String) : List Token :=
  let r := tokenizeLoop source.data 0 1 1 []
  r.1 ++ [Token.new ("") TokenType.EOF r.2.1 r.2.2]


/-
  Claim-level development.  The definitions below are concrete programs and
  states used by the claim theorems, followed by shared helper lemmas and the
  per-claim theorems (counterexamples, main/amended theorems, witnesses).
-/

set_option maxRecDepth 10000

/-- Concrete location used by the claim-level concrete programs. -/
def loc0 : Location := ⟨1, 1⟩

/-- The empty root environment. -/
def env0 : Environment := .mk none [] []

/-- Scope chain for C1: a child whose constants map holds x while the parent
declares x as a plain variable (`x := 1; { const x := 2; x = 3 }` shape: the
child sees the constant through lookup, but its variables map is empty). -/
def envC1 : Environment :=
  .mk (some (.mk none [(("x"), Value.Int 1)] [])) [] [(("x"), Value.Int 2)]

/-- Environment for C3: a user function f with one Int-typed parameter whose
body returns the parameter. -/
def envF : Environment := env0.declare ("f") (.Function (.mk [⟨("n"), DataType.Int, loc0⟩]
  [ .Expression (.Identifier ("n") loc0) ])) false

/-- For statement for C4: `for |i: int| in ["s"] { }` — an Int-typed loop
variable iterating a single-element string array with an empty body. -/
def forStmtC4 : Stmt := .ForStmt
  (some (.VarDeclStmt (.mk false ("i") DataType.Int
    (some (.Expression (.ArrayLit [ .StringLit ("s") loc0 ] loc0))) loc0)))
  none none [] loc0

/-- Block for C5: a block whose only statement declares x := 1. -/
def blockStmtC5 : Stmt := .BlockStmt
  [ .Statement (.VarDeclStmt (.mk false ("x") DataType.Int
      (some (.Expression (.IntLit 1 loc0))) loc0)) ] loc0

/-- Parser state for C6: positioned at an Int token where an identifier is
demanded. -/
def stC6 : ParserState := ⟨[Token.new ("1") TokenType.Int 1 1], 0⟩

/-- Token stream for C7: the source `-5` as the lexer emits it. -/
def tC7 : List Token := [Token.new ("-") (TokenType.ArithOp ArithOp.Sub) 1 1,
  Token.new ("5") TokenType.Int 1 2, Token.new ("") TokenType.EOF 1 3]

/-- Parser state for C7 at the start of tC7. -/
def stC7 : ParserState := ⟨tC7, 0⟩

/-- Spec-side quantity for C8: the sum of the emitted tokens' recorded
lengths (spec wording: sum of token lengths). -/
def tokenLenSum (ts : List Token) : Nat := (ts.map (fun t => t.length)).sum

/-- Spec-side quantity for C8: the number of whitespace characters of the
source (spec wording: the skipped whitespace). -/
def skippedWhitespace (s : String) : Nat := s.data.countP (fun c => c.isWhitespace)

/-- Source-literal object properties with integer-literal values, in source
order (the shape objPropsLoop collects for such a literal). -/
def intProps (ks : List (String × Int)) : List Property :=
  ks.map (fun kv => Property.mk kv.1 (.IntLit kv.2 (Location.mk 0 0)) (Location.mk 0 0))

/-- The string-literal key array of the synthetic __keys__ property
parse_object_properties appends. -/
def keyStringLits (ks : List (String × Int)) : List Expr :=
  ks.map (fun kv => Expr.StringLit kv.1 (Location.mk 0 0))

/-- The full property list parse_object_properties produces for such an
object literal: the source properties followed by the __keys__ property. -/
def withKeysProp (ks : List (String × Int)) : List Property :=
  intProps ks ++ [ Property.mk ("__keys__")
    (.ArrayLit (keyStringLits ks) (Location.mk 0 0)) (Location.mk 0 0) ]

/-- The map evalObjectProps builds from intProps: every key mapped to its
Int value, in insertion order. -/
def insertAllInt (m : List (String × Value)) (ks : List (String × Int)) : List (String × Value) :=
  ks.foldl (fun acc kv => hm_insert acc kv.1 (.Int kv.2)) m

/-- The final object map an object literal evaluates to: all source entries
plus the __keys__ array. -/
def objKeysFinalMap (ks : List (String × Int)) : List (String × Value) :=
  hm_insert (insertAllInt [] ks) ("__keys__") (.Array (ks.map (fun kv => Value.String kv.1)))

/-- Inserting a binding makes it the one hm_get retrieves for that key. -/
theorem hm_get_insert_same {α : Type} (m : List (String × α)) (k : String) (v : α) :
    hm_get (hm_insert m k v) k = some v := by
  induction m with
  | nil => simp [hm_insert, hm_get]
  | cons kv rest ih =>
    by_cases h : (kv.1 == k) = true
    · simp [hm_insert, hm_get, h]
    · simp only [Bool.not_eq_true] at h
      simp [hm_insert, hm_get, h, ih]

/-- Every error message Environment.assign produces contains the name. -/
theorem assign_error_mentions_name :
    ∀ (env : Environment) (name : String) (v : Value) (msg : String),
    Environment.assign env name v = .error msg → strContainsSub msg name = true
  | .mk parent vars consts, name, v, msg => by
    intro h
    unfold Environment.assign at h
    split at h
    · split at h
      · simp only [Except.error.injEq] at h
        subst h
        unfold strContainsSub
        refine decide_eq_true ?_
        refine ⟨(("Cannot reassign constant ") ++ apos).data, apos.data, ?_⟩
        simp [String.data_append]
      · simp at h
    · match parent with
      | some p =>
        simp only at h
        split at h
        · simp at h
        · rename_i e heq
          simp only [Except.error.injEq] at h
          subst h
          exact assign_error_mentions_name p name v e heq
      | none =>
        simp only [Except.error.injEq] at h
        subst h
        unfold strContainsSub
        refine decide_eq_true ?_
        refine ⟨(("Variable ") ++ apos).data, (apos ++ (" not found")).data, ?_⟩
        simp [String.data_append]

/-- Reduction of evaluate_expression on an identifier, exposing the lookup. -/
theorem evaluate_ident_red (fuel : Nat) (env : Environment) (loc : Location) (name : String) :
    evaluate_expression (fuel + 1) (.Identifier name loc) env
      = (match env.lookup name with
         | some value => Res.ok value env
         | none => Res.err (ZekkenError.reference
             (("Variable ") ++ apos ++ name ++ apos ++ (" not found")) name loc.line loc.column) env) := rfl

/-- Reduction of evaluate_call_expression on an identifier callee, exposing
the callee evaluation, the arity check and the body run. -/
theorem evaluate_call_ident_red (fuel : Nat) (env : Environment) (loc : Location) (name : String)
    (args : List Expr) :
    evaluate_call_expression (fuel + 2) (.Identifier name loc) args loc env
      = (match evaluate_expression (fuel + 1) (.Identifier name loc) env with
         | Res.ok (.NativeFunction nm) env2 =>
           (match evalExprList (fuel + 1) args env2 with
            | Res.ok _ env3 =>
              Res.err (ZekkenError.internal
                (("native function call (host I/O) not modelled: ") ++ nm)) env3
            | Res.err e env3 => Res.err e env3
            | Res.out => Res.out)
         | Res.ok (.Function func) env2 =>
           if args.length != func.params.length then
             Res.err (ZekkenError.runtime
               (("Expected ") ++ toString func.params.length ++ (" arguments but got ")
                 ++ toString args.length)
               loc.line loc.column (some ("argument mismatch"))) env2
           else
             match evalExprList (fuel + 1) args env2 with
             | Res.ok argVals env3 =>
               (match evalFuncBody (fuel + 1) func.body
                   (declareParams func.params argVals (Environment.new_with_parent env3))
                   Value.Void with
                | Res.ok result _ => Res.ok result env3
                | Res.err e _ => Res.err e env3
                | Res.out => Res.out)
             | Res.err e env3 => Res.err e env3
             | Res.out => Res.out
         | Res.ok _ env2 =>
           Res.err (ZekkenError.type_error ("Cannot call non-function value")
             ("function") ("non-function") loc.line loc.column) env2
         | Res.err e env2 => Res.err e env2
         | Res.out => Res.out) := rfl

/-- Reduction of evaluate_for_statement on a VarDecl init with an expression
initializer, exposing the single collection evaluation and the dispatch. -/
theorem evaluate_for_red (fuel : Nat) (var_decl : VarDecl) (body : List Content)
    (loc : Location) (env : Environment) (expr : Expr)
    (h : var_decl.value = some (.Expression expr)) :
    evaluate_for_statement (fuel + 2) (some (.VarDeclStmt var_decl)) body loc env
      = (match evaluate_expression (fuel + 1) expr env with
         | Res.ok collection env2 =>
           (match collection with
            | .Object map => evaluate_for_object (fuel + 1) map var_decl body env2
            | .Array arr => evaluate_for_array (fuel + 1) arr var_decl body env2
            | other =>
              Res.err (ZekkenError.type_error ("For loop must iterate over an object or array")
                ("object or array") (value_type_name other) loc.line loc.column) env2)
         | Res.err e env2 => Res.err e env2
         | Res.out => Res.out) := by
  rw [show evaluate_for_statement (fuel + 2) (some (.VarDeclStmt var_decl)) body loc env
    = (match var_decl.value with
       | some (.Expression expr2) =>
         (match evaluate_expression (fuel + 1) expr2 env with
          | Res.ok collection env2 =>
            (match collection with
             | .Object map => evaluate_for_object (fuel + 1) map var_decl body env2
             | .Array arr => evaluate_for_array (fuel + 1) arr var_decl body env2
             | other =>
               Res.err (ZekkenError.type_error ("For loop must iterate over an object or array")
                 ("object or array") (value_type_name other) loc.line loc.column) env2)
          | Res.err e env2 => Res.err e env2
          | Res.out => Res.out)
       | some (.Statement _) =>
         Res.err (ZekkenError.runtime ("Expected expression in for loop initialization")
           loc.line loc.column (some ("for |x| in array \x7b ... \x7d"))) env
       | none =>
         Res.err (ZekkenError.runtime ("For loop initialization requires a value")
           loc.line loc.column none) env) from rfl, h]

/-- evalObjectProps on integer-literal properties: each value evaluates in one
fuel step and the binding is inserted, leaving the environment unchanged. -/
theorem evalObjectProps_intProps (ks : List (String × Int)) (F : Nat) (rest : List Property)
    (env : Environment) :
    ∀ (map : List (String × Value)),
    evalObjectProps (ks.length + F + 1) (intProps ks ++ rest) env map
      = evalObjectProps (F + 1) rest env (insertAllInt map ks) := by
  induction ks with
  | nil =>
    intro map
    simp only [List.length_nil, Nat.zero_add]
    rfl
  | cons kv ks ih =>
    intro map
    simp only [List.length_cons]
    rw [show ks.length + 1 + F + 1 = (ks.length + F + 1) + 1 from by omega]
    rw [show evalObjectProps ((ks.length + F + 1) + 1) (intProps (kv :: ks) ++ rest) env map
      = evalObjectProps (ks.length + F + 1) (intProps ks ++ rest) env
          (hm_insert map kv.1 (.Int kv.2)) from rfl]
    exact ih (hm_insert map kv.1 (.Int kv.2))

/-- evalExprList on the string-literal key array evaluates to the keys in
order, leaving the environment unchanged. -/
theorem evalExprList_keyStringLits (ks : List (String × Int)) (F : Nat) (env : Environment) :
    evalExprList (ks.length + F + 1) (keyStringLits ks) env
      = Res.ok (ks.map (fun kv => Value.String kv.1)) env := by
  induction ks with
  | nil => rfl
  | cons kv ks ih =>
    simp only [List.length_cons]
    rw [show ks.length + 1 + F + 1 = (ks.length + F + 1) + 1 from by omega]
    rw [show evalExprList ((ks.length + F + 1) + 1) (keyStringLits (kv :: ks)) env
      = (match evalExprList (ks.length + F + 1) (keyStringLits ks) env with
         | Res.ok vs env3 => Res.ok (Value.String kv.1 :: vs) env3
         | Res.err e2 env3 => Res.err e2 env3
         | Res.out => Res.out) from rfl, ih]
    rfl

/-- The keys filter of handle_object_method keeps every string key other than
__keys__, in order. -/
theorem keysFilterMap_id (ks : List (String × Int)) (h : ∀ kv ∈ ks, kv.1 ≠ ("__keys__")) :
    (ks.map (fun kv => Value.String kv.1)).filterMap objKeysFilter
      = ks.map (fun kv => Value.String kv.1) := by
  induction ks with
  | nil => rfl
  | cons kv ks ih =>
    have hk : (kv.1 != ("__keys__")) = true := by
      simpa using h kv (List.mem_cons_self kv ks)
    simp only [List.map_cons, List.filterMap_cons]
    rw [show objKeysFilter (Value.String kv.1)
      = (if kv.1 != ("__keys__") then some (Value.String kv.1) else none) from rfl, hk]
    simp only [if_true]
    rw [ih (fun x hx => h x (List.mem_cons_of_mem kv hx))]

/-- C1 counterexample: in envC1 the name x resolves (via lookup) to the
constant Int 2 of the current scope, yet assignment succeeds, updating the
parent's variable — Environment::assign consults the constants map only when
the name is also in the current variables map. -/
theorem c1_counterexample_assign_succeeds_on_resolved_constant :
    envC1.lookup ("x") = some (Value.Int 2) ∧
    Environment.assign envC1 ("x") (Value.Int 3)
      = Except.ok (Environment.mk (some (.mk none [(("x"), Value.Int 3)] [])) [] [(("x"), Value.Int 2)]) := by
  constructor <;> rfl

/-- C1 (amended): Environment::assign errors on a constant only when the name
is in the current scope's variables AND constants maps; with the name in
variables only it updates in place; with the name absent from variables it
recurses into the parent or fails mentioning the name; every assign error
mentions the name; and evaluate_assignment wraps an assign failure as a
Runtime error at the assignment's location, keeping the environment. -/
theorem c1_amended_assign_spec :
    (∀ (p : Option Environment) (vars consts : List (String × Value)) (name : String) (v : Value),
      hm_contains vars name = true → hm_contains consts name = true →
      Environment.assign (.mk p vars consts) name v
        = Except.error (("Cannot reassign constant ") ++ apos ++ name ++ apos)) ∧
    (∀ (p : Option Environment) (vars consts : List (String × Value)) (name : String) (v : Value),
      hm_contains vars name = true → hm_contains consts name = false →
      Environment.assign (.mk p vars consts) name v
        = Except.ok (.mk p (hm_insert vars name v) consts)) ∧
    (∀ (vars consts : List (String × Value)) (name : String) (v : Value),
      hm_contains vars name = false →
      Environment.assign (.mk none vars consts) name v
        = Except.error (("Variable ") ++ apos ++ name ++ apos ++ (" not found"))) ∧
    (∀ (par : Environment) (vars consts : List (String × Value)) (name : String) (v : Value),
      hm_contains vars name = false →
      (∀ p2, Environment.assign par name v = .ok p2 →
        Environment.assign (.mk (some par) vars consts) name v
          = .ok (.mk (some p2) vars consts)) ∧
      (∀ e, Environment.assign par name v = .error e →
        Environment.assign (.mk (some par) vars consts) name v = .error e)) ∧
    (∀ (env : Environment) (name : String) (v : Value) (msg : String),
      Environment.assign env name v = .error msg → strContainsSub msg name = true) ∧
    (∀ (fuel : Nat) (env : Environment) (name : String) (k : Int) (msg : String) (loc : Location),
      Environment.assign env name (Value.Int k) = Except.error msg →
      evaluate_expression (fuel + 3) (.Assign (.Identifier name loc) (.IntLit k loc) ("=") loc) env
        = Res.err (ZekkenError.runtime msg loc.line loc.column none) env) := by
  refine ⟨?_, ?_, ?_, ?_, assign_error_mentions_name, ?_⟩
  · intro p vars consts name v h1 h2
    unfold Environment.assign
    simp [h1, h2]
  · intro p vars consts name v h1 h2
    unfold Environment.assign
    simp [h1, h2]
  · intro vars consts name v h1
    unfold Environment.assign
    simp [h1]
  · intro par vars consts name v h1
    constructor
    · intro p2 h2
      unfold Environment.assign
      simp [h1, h2]
    · intro e h2
      unfold Environment.assign
      simp [h1, h2]
  · intro fuel env name k msg loc h
    show evaluate_expression (fuel + 2 + 1) _ _ = _
    unfold evaluate_expression
    show evaluate_assignment (fuel + 1 + 1) _ _ _ _ _ = _
    unfold evaluate_assignment
    simp only [bne_self_eq_false, Bool.false_eq_true, if_false, ite_false]
    show (match evaluate_expression (fuel + 1) (.IntLit k loc) env with
      | Res.ok value env2 =>
        match env2.assign name value with
        | .ok env3 => Res.ok value env3
        | .error msg2 => Res.err (ZekkenError.runtime msg2 loc.line loc.column none) env2
      | Res.err e env2 => Res.err e env2
      | Res.out => Res.out) = _
    rw [show evaluate_expression (fuel + 1) (.IntLit k loc) env = Res.ok (.Int k) env from rfl]
    simp [h]

/-- C1 witness: applying the amended theorem at a concrete variable update. -/
theorem c1_amended_witness :
    Environment.assign (.mk none [(("y"), Value.Int 1)] []) ("y") (Value.Int 5)
      = Except.ok (.mk none [(("y"), Value.Int 5)] []) := by
  have h := c1_amended_assign_spec.2.1 none [(("y"), Value.Int 1)] [] ("y") (Value.Int 5)
    (by rfl) (by rfl)
  simpa using h

/-- C2 counterexample: `1 % 0` evaluates to a Type-kind error ("Modulo by
zero"), not the Runtime kind the spec promises for modulo by zero. -/
theorem c2_counterexample_modulo_by_zero_is_type_error :
    evaluate_expression 3 (.Binary (.IntLit 1 loc0) (.IntLit 0 loc0) ("%") loc0) env0
      = Res.err (ZekkenError.type_error ("Modulo by zero") ("valid types") ("invalid types") 1 1) env0 ∧
    (ZekkenError.type_error ("Modulo by zero") ("valid types") ("invalid types") 1 1).kind
      = ErrorKind.TypeError ∧
    ErrorKind.TypeError ≠ ErrorKind.Runtime := by
  refine ⟨rfl, rfl, by simp⟩

/-- C2 (amended): same-type arithmetic matches host arithmetic (wrapping i64
for ints, IEEE for floats); division by zero is a Runtime error with extra
"division by zero" for both ints and floats; modulo by zero and modulo on
non-integers are TYPE errors (not Runtime); and a binary expression over two
int literals evaluates end-to-end through applyBinaryOp. -/
theorem c2_amended_arithmetic_spec :
    (∀ (l r : Int) (loc : Location),
      applyBinaryOp ("+") (.Int l) (.Int r) loc = .ok (.Int (wrap64 (l + r))) ∧
      applyBinaryOp ("-") (.Int l) (.Int r) loc = .ok (.Int (wrap64 (l - r))) ∧
      applyBinaryOp ("*") (.Int l) (.Int r) loc = .ok (.Int (wrap64 (l * r)))) ∧
    (∀ (x y : Float) (loc : Location),
      applyBinaryOp ("+") (.Float x) (.Float y) loc = .ok (.Float (x + y)) ∧
      applyBinaryOp ("-") (.Float x) (.Float y) loc = .ok (.Float (x - y)) ∧
      applyBinaryOp ("*") (.Float x) (.Float y) loc = .ok (.Float (x * y))) ∧
    (∀ (l r : Int) (loc : Location), r ≠ 0 →
      applyBinaryOp ("/") (.Int l) (.Int r) loc = .ok (.Int (wrap64 (Int.tdiv l r))) ∧
      applyBinaryOp ("%") (.Int l) (.Int r) loc = .ok (.Int (wrap64 (Int.tmod l r)))) ∧
    (∀ (l : Int) (loc : Location),
      applyBinaryOp ("/") (.Int l) (.Int 0) loc
        = .error (ZekkenError.runtime ("Division by zero") loc.line loc.column
            (some ("division by zero"))) ∧
      (ZekkenError.runtime ("Division by zero") loc.line loc.column
        (some ("division by zero"))).kind = ErrorKind.Runtime) ∧
    (∀ (l : Int) (loc : Location),
      applyBinaryOp ("%") (.Int l) (.Int 0) loc
        = .error (ZekkenError.type_error ("Modulo by zero") ("valid types") ("invalid types")
            loc.line loc.column)) ∧
    (∀ (x y : Float) (loc : Location),
      applyBinaryOp ("/") (.Float x) (.Float y) loc
        = (if y == 0.0 then
            .error (ZekkenError.runtime ("Division by zero") loc.line loc.column
              (some ("division by zero")))
          else .ok (.Float (x / y)))) ∧
    (∀ (v : Value) (x : Float) (loc : Location),
      applyBinaryOp ("%") (.Float x) v loc
        = .error (ZekkenError.type_error ("Invalid operand types for modulo")
            ("valid types") ("invalid types") loc.line loc.column)) ∧
    (∀ (fuel : Nat) (env : Environment) (loc : Location) (l r : Int) (op : String),
      evaluate_expression (fuel + 3) (.Binary (.IntLit l loc) (.IntLit r loc) op loc) env
        = (match applyBinaryOp op (.Int l) (.Int r) loc with
           | .ok v => Res.ok v env
           | .error e => Res.err e env)) := by
  refine ⟨fun l r loc => ⟨rfl, rfl, rfl⟩, fun x y loc => ⟨rfl, rfl, rfl⟩, ?_, ?_, ?_, ?_, ?_, ?_⟩
  · intro l r loc h
    have hb : (r == 0) = false := by simpa using h
    constructor
    · rw [show applyBinaryOp ("/") (.Int l) (.Int r) loc
        = ((if r == 0 then Except.error ("Division by zero")
            else Except.ok (Value.Int (wrap64 (Int.tdiv l r)))) : Except String Value).mapError
            (fun msg => ZekkenError.runtime msg loc.line loc.column
              (if strContainsSub msg ("zero") then some ("division by zero") else none)) from rfl,
        hb]
      rfl
    · rw [show applyBinaryOp ("%") (.Int l) (.Int r) loc
        = ((if r == 0 then Except.error ("Modulo by zero")
            else Except.ok (Value.Int (wrap64 (Int.tmod l r)))) : Except String Value).mapError
            (fun msg => ZekkenError.type_error msg ("valid types") ("invalid types")
              loc.line loc.column) from rfl,
        hb]
      rfl
  · intro l loc
    exact ⟨rfl, rfl⟩
  · intro l loc
    rfl
  · intro x y loc
    cases hb : (y == 0.0) with
    | true =>
      rw [show applyBinaryOp ("/") (.Float x) (.Float y) loc
        = ((if y == 0.0 then Except.error ("Division by zero")
            else Except.ok (Value.Float (x / y))) : Except String Value).mapError
            (fun msg => ZekkenError.runtime msg loc.line loc.column
              (if strContainsSub msg ("zero") then some ("division by zero") else none)) from rfl,
        hb]
      rfl
    | false =>
      rw [show applyBinaryOp ("/") (.Float x) (.Float y) loc
        = ((if y == 0.0 then Except.error ("Division by zero")
            else Except.ok (Value.Float (x / y))) : Except String Value).mapError
            (fun msg => ZekkenError.runtime msg loc.line loc.column
              (if strContainsSub msg ("zero") then some ("division by zero") else none)) from rfl,
        hb]
      rfl
  · intro v x loc
    cases v <;> rfl
  · intro fuel env loc l r op
    rfl

/-- C2 witness: the amended theorem applied at 7 / 2 and 7 % 2. -/
theorem c2_amended_witness :
    (2 : Int) ≠ 0 ∧
    applyBinaryOp ("/") (.Int 7) (.Int 2) ⟨1, 1⟩ = .ok (.Int 3) ∧
    applyBinaryOp ("%") (.Int 7) (.Int 2) ⟨1, 1⟩ = .ok (.Int 1) := by
  have h := (c2_amended_arithmetic_spec.2.2.1) 7 2 ⟨1, 1⟩ (by decide)
  exact ⟨by decide, by rw [h.1]; rfl, by rw [h.2]; rfl⟩

/-- C3 counterexample: calling f (declared with an Int parameter) on the
string "hi" succeeds and returns the string — no argument is type-checked
against the declared parameter type. -/
theorem c3_counterexample_no_argument_type_check :
    evaluate_expression 6 (.Call (.Identifier ("f") loc0) [ .StringLit ("hi") loc0 ] loc0) envF
      = Res.ok (.String ("hi")) envF ∧
    check_value_type (.String ("hi")) DataType.Int = false ∧
    (envF.lookup ("f")).map (fun v => match v with
      | .Function func => (func.params.map (fun p => p.type_))
      | _ => []) = some [DataType.Int] := by
  refine ⟨rfl, rfl, rfl⟩

/-- C3 (amended): the arity check runs first and a mismatch is a Runtime
error with extra "argument mismatch"; on a matching arity the arguments are
evaluated in the caller environment and the body runs immediately in a child
of a clone of it — there is NO type check of arguments against the declared
parameter types. -/
theorem c3_amended_call_spec :
    (∀ (fuel : Nat) (env : Environment) (loc : Location) (name : String) (func : FunctionValue)
       (args : List Expr),
      env.lookup name = some (.Function func) →
      args.length ≠ func.params.length →
      evaluate_call_expression (fuel + 2) (.Identifier name loc) args loc env
        = Res.err (ZekkenError.runtime
            (("Expected ") ++ toString func.params.length ++ (" arguments but got ")
              ++ toString args.length)
            loc.line loc.column (some ("argument mismatch"))) env) ∧
    (∀ (fuel : Nat) (env env3 : Environment) (loc : Location) (name : String)
       (func : FunctionValue) (args : List Expr) (argVals : List Value),
      env.lookup name = some (.Function func) →
      args.length = func.params.length →
      evalExprList (fuel + 1) args env = Res.ok argVals env3 →
      evaluate_call_expression (fuel + 2) (.Identifier name loc) args loc env
        = (match evalFuncBody (fuel + 1) func.body
              (declareParams func.params argVals (Environment.new_with_parent env3))
              Value.Void with
           | .ok result _ => Res.ok result env3
           | .err e _ => Res.err e env3
           | .out => Res.out)) := by
  constructor
  · intro fuel env loc name func args h1 h2
    have hb : (args.length != func.params.length) = true := by simpa using h2
    rw [evaluate_call_ident_red, evaluate_ident_red, h1]
    simp only [hb, if_true]
  · intro fuel env env3 loc name func args argVals h1 h2 h3
    have hb : (args.length != func.params.length) = false := by simpa using h2
    rw [evaluate_call_ident_red, evaluate_ident_red, h1]
    simp only [hb, Bool.false_eq_true, if_false, h3]

/-- C3 witness: the amended arity clause applied to a zero-argument call of a
one-parameter function. -/
theorem c3_amended_witness :
    env0.lookup ("f") = none ∧
    (Environment.mk none [(("f"),
        Value.Function (.mk [⟨("n"), DataType.Int, ⟨1, 1⟩⟩] []))] []).lookup ("f")
      = some (.Function (.mk [⟨("n"), DataType.Int, ⟨1, 1⟩⟩] [])) ∧
    evaluate_call_expression 5 (.Identifier ("f") ⟨1, 1⟩) [] ⟨1, 1⟩
        (Environment.mk none [(("f"),
          Value.Function (.mk [⟨("n"), DataType.Int, ⟨1, 1⟩⟩] []))] [])
      = Res.err (ZekkenError.runtime
          (("Expected ") ++ toString (1 : Nat) ++ (" arguments but got ") ++ toString (0 : Nat))
          1 1 (some ("argument mismatch")))
        (Environment.mk none [(("f"),
          Value.Function (.mk [⟨("n"), DataType.Int, ⟨1, 1⟩⟩] []))] []) := by
  refine ⟨rfl, rfl, ?_⟩
  exact c3_amended_call_spec.1 3 _ ⟨1, 1⟩ ("f") (.mk [⟨("n"), DataType.Int, ⟨1, 1⟩⟩] []) []
    rfl (by decide)

/-- C4 counterexample: `for |i: int| in ["s"] {}` succeeds — the String
element is never type-checked against the declared Int type, and the loop
variable is declared into the CALLER environment (no child scope), where it
remains visible afterwards. -/
theorem c4_counterexample_for_array_no_child_env_no_type_check :
    evaluate_statement 6 forStmtC4 env0 = Res.ok none (env0.declare ("i") (.String ("s")) false) ∧
    check_value_type (.String ("s")) DataType.Int = false ∧
    (env0.declare ("i") (.String ("s")) false).lookup ("i") = some (.String ("s")) ∧
    env0.lookup ("i") = none := ⟨rfl, rfl, rfl, rfl⟩

/-- C4 (amended): the collection expression is evaluated once and a
non-Array/Object collection is a Type error; ARRAY iteration runs in the
caller environment with NO child scope and NO element type check, declaring
each element binding directly into it; OBJECT iteration creates one child
environment before the loop, per-iteration type-checks the value when the
declared type is not Any, and returns the caller environment unchanged. -/
theorem c4_amended_for_spec :
    (∀ (fuel : Nat) (var_decl : VarDecl) (body : List Content) (loc : Location)
       (env env2 : Environment) (expr : Expr) (coll : Value),
      var_decl.value = some (.Expression expr) →
      evaluate_expression (fuel + 1) expr env = Res.ok coll env2 →
      (∀ m, coll ≠ Value.Object m) → (∀ a, coll ≠ Value.Array a) →
      evaluate_for_statement (fuel + 2) (some (.VarDeclStmt var_decl)) body loc env
        = Res.err (ZekkenError.type_error ("For loop must iterate over an object or array")
            ("object or array") (value_type_name coll) loc.line loc.column) env2) ∧
    (∀ (fuel : Nat) (var_decl : VarDecl) (body : List Content) (loc : Location)
       (env env2 : Environment) (expr : Expr) (arr : List Value),
      var_decl.value = some (.Expression expr) →
      evaluate_expression (fuel + 1) expr env = Res.ok (.Array arr) env2 →
      evaluate_for_statement (fuel + 2) (some (.VarDeclStmt var_decl)) body loc env
        = evaluate_for_array (fuel + 1) arr var_decl body env2) ∧
    (∀ (fuel : Nat) (arr : List Value) (var_decl : VarDecl) (body : List Content)
       (env : Environment) (id1 : String),
      splitIdents var_decl.ident = [id1] →
      evaluate_for_array (fuel + 1) arr var_decl body env
        = evalForArrayIter fuel arr id1 body env) ∧
    (∀ (fuel : Nat) (v : Value) (id1 : String) (env : Environment),
      evalForArrayIter (fuel + 3) [v] id1 [] env
        = Res.ok none (env.declare id1 v false)) ∧
    (∀ (fuel : Nat) (keys : List Value) (map : List (String × Value)) (var_decl : VarDecl)
       (kId vId : String) (body : List Content) (iter_env : Environment)
       (key : String) (value : Value),
      hm_get map key = some value →
      var_decl.type_ ≠ DataType.Any →
      check_value_type value var_decl.type_ = false →
      evalForObjectIter (fuel + 1) (Value.String key :: keys) map var_decl kId vId body iter_env
        = Res.err (ZekkenError.type_error
            (("Type mismatch in for loop value: expected ") ++ dataTypeDebug var_decl.type_ ++
              (", found ") ++ value_type_name value)
            (dataTypeDebug var_decl.type_) (value_type_name value)
            var_decl.location.line var_decl.location.column) iter_env) ∧
    (∀ (fuel : Nat) (map : List (String × Value)) (var_decl : VarDecl) (body : List Content)
       (env : Environment) (kId vId : String) (keys : List Value),
      splitIdents var_decl.ident = [kId, vId] →
      hm_get map ("__keys__") = some (.Array keys) →
      evaluate_for_object (fuel + 1) map var_decl body env
        = (match evalForObjectIter fuel keys map var_decl kId vId body
              (forObjectIterEnv env kId vId var_decl.type_) with
           | .ok _ _ => Res.ok none env
           | .err e _ => Res.err e env
           | .out => Res.out)) := by
  refine ⟨?_, ?_, ?_, ?_, ?_, ?_⟩
  · intro fuel var_decl body loc env env2 expr coll h1 h2 hno hna
    rw [evaluate_for_red fuel var_decl body loc env expr h1, h2]
    cases coll with
    | Object m => exact absurd rfl (hno m)
    | Array a => exact absurd rfl (hna a)
    | Int _ => rfl
    | Float _ => rfl
    | String _ => rfl
    | Boolean _ => rfl
    | Function _ => rfl
    | NativeFunction _ => rfl
    | Complex _ _ => rfl
    | Vector _ => rfl
    | Matrix _ => rfl
    | Void => rfl
  · intro fuel var_decl body loc env env2 expr arr h1 h2
    rw [evaluate_for_red fuel var_decl body loc env expr h1, h2]
  · intro fuel arr var_decl body env id1 h
    rw [show evaluate_for_array (fuel + 1) arr var_decl body env
      = (match splitIdents var_decl.ident with
         | [ident1] => evalForArrayIter fuel arr ident1 body env
         | _ =>
           Res.err (ZekkenError.syntaxErr ("Array iteration requires one identifier")
             var_decl.location.line var_decl.location.column none none) env) from rfl, h]
  · intro fuel v id1 env
    rfl
  · intro fuel keys map var_decl kId vId body iter_env key value h1 h2 h3
    have hb : (var_decl.type_ != DataType.Any && !check_value_type value var_decl.type_) = true := by
      simp [h2, h3]
    rw [show evalForObjectIter (fuel + 1) (Value.String key :: keys) map var_decl kId vId body iter_env
      = (match hm_get map key with
         | some value2 =>
           if var_decl.type_ != DataType.Any && !check_value_type value2 var_decl.type_ then
             Res.err (ZekkenError.type_error
               (("Type mismatch in for loop value: expected ") ++ dataTypeDebug var_decl.type_ ++
                 (", found ") ++ value_type_name value2)
               (dataTypeDebug var_decl.type_) (value_type_name value2)
               var_decl.location.line var_decl.location.column) iter_env
           else
             (match evaluate_block_content fuel body
                 ((iter_env.declare kId (.String key) false).declare vId value2 false) with
              | Res.ok _ iter_env2 => evalForObjectIter fuel keys map var_decl kId vId body iter_env2
              | Res.err e iter_env2 => Res.err e iter_env2
              | Res.out => Res.out)
         | none => evalForObjectIter fuel keys map var_decl kId vId body iter_env) from rfl, h1]
    simp only [hb, if_true]
  · intro fuel map var_decl body env kId vId keys h1 h2
    rw [show evaluate_for_object (fuel + 1) map var_decl body env
      = (match splitIdents var_decl.ident with
         | [kId2, vId2] =>
           (match hm_get map ("__keys__") with
            | some (.Array keys2) =>
              (match evalForObjectIter fuel keys2 map var_decl kId2 vId2 body
                  (forObjectIterEnv env kId2 vId2 var_decl.type_) with
               | .ok _ _ => Res.ok none env
               | .err e _ => Res.err e env
               | .out => Res.out)
            | _ =>
              Res.err (ZekkenError.type_error ("Object missing key order") ("array") ("missing")
                var_decl.location.line var_decl.location.column) env)
         | _ =>
           Res.err (ZekkenError.syntaxErr ("Object iteration requires two identifiers (key, value)")
             var_decl.location.line var_decl.location.column none none) env) from rfl, h1, h2]

/-- C4 witness: the amended non-collection clause applied to `for ... in 3`. -/
theorem c4_amended_witness :
    (∀ m, Value.Int 3 ≠ Value.Object m) ∧ (∀ a, Value.Int 3 ≠ Value.Array a) ∧
    evaluate_expression 1 (.IntLit 3 ⟨1, 1⟩) (Environment.mk none [] [])
      = Res.ok (.Int 3) (Environment.mk none [] []) ∧
    evaluate_for_statement 2
        (some (.VarDeclStmt (.mk false ("i") DataType.Any
          (some (.Expression (.IntLit 3 ⟨1, 1⟩))) ⟨1, 1⟩)))
        [] ⟨1, 1⟩ (Environment.mk none [] [])
      = Res.err (ZekkenError.type_error ("For loop must iterate over an object or array")
          ("object or array") (value_type_name (.Int 3)) 1 1) (Environment.mk none [] []) := by
  refine ⟨?_, ?_, rfl, ?_⟩
  · intro m h
    injection h
  · intro a h
    injection h
  · exact c4_amended_for_spec.1 0
      (.mk false ("i") DataType.Any (some (.Expression (.IntLit 3 ⟨1, 1⟩))) ⟨1, 1⟩)
      [] ⟨1, 1⟩ _ _ (.IntLit 3 ⟨1, 1⟩) (.Int 3) rfl rfl
      (fun m h => by injection h) (fun a h => by injection h)

/-- C5 counterexample: a variable declared inside a block IS visible in the
enclosing environment after the block finishes: blocks run in the same
environment, with no child scope. -/
theorem c5_counterexample_block_declaration_leaks :
    evaluate_statement 7 blockStmtC5 env0 = Res.ok none (env0.declare ("x") (.Int 1) false) ∧
    (env0.declare ("x") (.Int 1) false).lookup ("x") = some (.Int 1) ∧
    env0.lookup ("x") = none := ⟨rfl, rfl, rfl⟩

/-- C5 (amended): evaluate_block delegates to evaluate_block_content in the
SAME environment (no child scope), a block consisting of one variable
declaration returns the caller environment extended with that declaration,
and a declared variable is visible through lookup. -/
theorem c5_amended_block_same_env :
    (∀ (fuel : Nat) (body : List Content) (env : Environment),
      evaluate_block (fuel + 1) body env = evaluate_block_content fuel body env) ∧
    (∀ (fuel : Nat) (body : List Content) (env : Environment),
      evaluate_block_content (fuel + 1) body env = contentLoop fuel body env none) ∧
    (∀ (fuel : Nat) (env : Environment) (ident : String) (k : Int) (loc : Location),
      evaluate_statement (fuel + 7) (.BlockStmt
          [ .Statement (.VarDeclStmt (.mk false ident DataType.Int
              (some (.Expression (.IntLit k loc))) loc)) ] loc) env
        = Res.ok none (env.declare ident (.Int k) false)) ∧
    (∀ (env : Environment) (ident : String) (v : Value),
      (env.declare ident v false).lookup ident = some v) := by
  refine ⟨fun fuel body env => rfl, fun fuel body env => rfl, fun fuel env ident k loc => rfl, ?_⟩
  intro env ident v
  cases env with
  | mk parent vars consts =>
    rw [show (Environment.mk parent vars consts).declare ident v false
      = Environment.mk parent (hm_insert vars ident v) consts from rfl]
    cases parent with
    | none => rw [Environment.lookup.eq_2, hm_get_insert_same]
    | some p => rw [Environment.lookup.eq_1, hm_get_insert_same]

/-- C6 counterexample: a failed expect returns the process-exit outcome with
exit code 1 carrying the structured Syntax error — it does not push into an
accumulator and does not continue parsing. -/
theorem c6_counterexample_expect_exits_process :
    Parser.expect stC6 TokenType.Identifier ("Expected identifier")
      = PRes.exited 1 (ZekkenError.syntaxErr ("Expected identifier") 1 1
          (some ("Identifier")) (some ("Int (1)"))) := rfl

/-- C6 (amended): on a kind mismatch, Parser::expect builds a structured
Syntax error with expected and found payloads ("End Of File" at EOF) and
terminates the process with exit code 1 — there is no error accumulator and
no recovery; on a match it consumes and returns the token. -/
theorem c6_amended_expect_spec :
    (∀ (st : ParserState) (t : TokenType) (err : String),
      (st.at_).kind ≠ t →
      Parser.expect st t err
        = PRes.exited 1 (ZekkenError.syntaxErr err (st.at_).line (st.at_).column
            (some (tokenTypeDebug t))
            (some (if (st.at_).kind == TokenType.EOF then ("End Of File")
              else tokenTypeDebug (st.at_).kind ++ (" (") ++ (st.at_).value ++ (")"))))) ∧
    (∀ (st : ParserState) (t : TokenType) (err : String),
      (st.at_).kind = t →
      Parser.expect st t err = PRes.ok (st.at_) st.consume) := by
  constructor
  · intro st t err h
    have hb : ((st.at_).kind != t) = true := by simpa using h
    unfold Parser.expect
    simp only [hb, if_true]
  · intro st t err h
    have hb : ((st.at_).kind != t) = false := by simp [h]
    unfold Parser.expect
    simp only [hb, Bool.false_eq_true, if_false]

/-- C6 witness: the amended mismatch clause applied to an identifier token
where an integer literal is demanded. -/
theorem c6_amended_witness :
    (Token.new ("x") TokenType.Identifier 1 1).kind ≠ TokenType.Int ∧
    Parser.expect ⟨[Token.new ("x") TokenType.Identifier 1 1], 0⟩ TokenType.Int ("Expected integer literal")
      = PRes.exited 1 (ZekkenError.syntaxErr ("Expected integer literal") 1 1
          (some (tokenTypeDebug TokenType.Int))
          (some (tokenTypeDebug TokenType.Identifier ++ (" (") ++ ("x") ++ (")")))) := by
  refine ⟨by decide, ?_⟩
  exact c6_amended_expect_spec.1 ⟨[Token.new ("x") TokenType.Identifier 1 1], 0⟩
    TokenType.Int ("Expected integer literal") (by decide)

/-- C7 counterexample: the parser desugars `-5` to `0.0 - 5` with a FLOAT
zero left operand (not integer zero), and evaluating that expression is a
mixed int/float Type error rather than Int(-5). -/
theorem c7_counterexample_unary_minus_is_float_zero :
    parse_prefix_form 9 stC7
      = PRes.ok (.Expression (.Binary (.FloatLit 0.0 (Location.mk 1 3))
          (.IntLit 5 (Location.mk 1 2)) ("-") (Location.mk 1 3))) ⟨tC7, 2⟩ ∧
    evaluate_expression 3 (.Binary (.FloatLit 0.0 (Location.mk 1 3))
          (.IntLit 5 (Location.mk 1 2)) ("-") (Location.mk 1 3)) env0
      = Res.err (ZekkenError.type_error
          (("Cannot perform ") ++ apos ++ ("-") ++ apos ++ (" operation between int and float"))
          ("int or float") ("mixed types") 1 3) env0 := ⟨rfl, rfl⟩

/-- C7 (amended): unary minus desugars to a subtraction whose left operand is
the FLOAT literal 0.0 (located at the token after the operand), so `-x` for
an integer x evaluates to the mixed int/float Type error, while `-y` for a
float y evaluates to Float(0.0 - y). -/
theorem c7_amended_unary_minus_spec :
    (∀ (fuel : Nat) (st st2 : ParserState) (e : Expr),
      (st.at_).kind = TokenType.ArithOp ArithOp.Sub →
      parse_prefix_form fuel st.consume = PRes.ok (.Expression e) st2 →
      parse_prefix_form (fuel + 1) st
        = PRes.ok (.Expression (.Binary (.FloatLit 0.0 (st2.at_).location) e ("-")
            (st2.at_).location)) st2) ∧
    (∀ (fuel : Nat) (env : Environment) (loc1 loc2 loc3 : Location) (x : Int),
      evaluate_expression (fuel + 3) (.Binary (.FloatLit 0.0 loc1) (.IntLit x loc2) ("-") loc3) env
        = Res.err (ZekkenError.type_error
            (("Cannot perform ") ++ apos ++ ("-") ++ apos ++ (" operation between int and float"))
            ("int or float") ("mixed types") loc3.line loc3.column) env) ∧
    (∀ (fuel : Nat) (env : Environment) (loc1 loc2 loc3 : Location) (y : Float),
      evaluate_expression (fuel + 3) (.Binary (.FloatLit 0.0 loc1) (.FloatLit y loc2) ("-") loc3) env
        = Res.ok (.Float (0.0 - y)) env) := by
  refine ⟨?_, fun fuel env loc1 loc2 loc3 x => rfl, fun fuel env loc1 loc2 loc3 y => rfl⟩
  intro fuel st st2 e hkind hrec
  have hb : ((st.at_).kind == TokenType.ArithOp ArithOp.Sub) = true := by simp [hkind]
  unfold parse_prefix_form
  simp only [hb, if_true]
  rw [hrec]

/-- C7 witness: the amended desugaring clause applied to the `-5` tokens. -/
theorem c7_amended_witness :
    (stC7.at_).kind = TokenType.ArithOp ArithOp.Sub ∧
    parse_prefix_form 8 stC7.consume
      = PRes.ok (.Expression (.IntLit 5 (Location.mk 1 2))) ⟨tC7, 2⟩ ∧
    parse_prefix_form 9 stC7
      = PRes.ok (.Expression (.Binary (.FloatLit 0.0 (((⟨tC7, 2⟩ : ParserState)).at_).location)
          (.IntLit 5 (Location.mk 1 2)) ("-") (((⟨tC7, 2⟩ : ParserState)).at_).location)) ⟨tC7, 2⟩ := by
  refine ⟨rfl, rfl, ?_⟩
  exact c7_amended_unary_minus_spec.1 8 stC7 ⟨tC7, 2⟩ (.IntLit 5 (Location.mk 1 2)) rfl rfl

/-- C8 counterexample: the lexer skips the unrecognized character # silently,
so tokenize "#" emits only the EOF token and the sum of token lengths plus
skipped whitespace is 0, not the source length 1. -/
theorem c8_counterexample_hash_skipped_breaks_length_sum :
    tokenize ("#") = [Token.new ("") TokenType.EOF 1 2] ∧
    tokenLenSum (tokenize ("#")) + skippedWhitespace ("#") = 0 ∧
    ("#" : String).data.length = 1 := by
  have h1 : tokenizeLoop [(Char.ofNat 35)] 0 1 1 [] = ([], 1, 2) := by
    rw [tokenizeLoop, dif_pos (by decide : 0 < [(Char.ofNat 35)].length)]
    show tokenizeLoop [(Char.ofNat 35)] 1 1 2 [] = ([], 1, 2)
    rw [tokenizeLoop, dif_neg (by decide : ¬ (1 < [(Char.ofNat 35)].length))]
  have h2 : tokenize ("#") = [Token.new ("") TokenType.EOF 1 2] := by
    show (tokenizeLoop [(Char.ofNat 35)] 0 1 1 []).1
        ++ [Token.new ("") TokenType.EOF (tokenizeLoop [(Char.ofNat 35)] 0 1 1 []).2.1
              (tokenizeLoop [(Char.ofNat 35)] 0 1 1 []).2.2]
      = [Token.new ("") TokenType.EOF 1 2]
    rw [h1]
    rfl
  refine ⟨h2, ?_, rfl⟩
  rw [h2]
  rfl

/-- C8 (amended): tokenize terminates on every source (it is a total
function, with termination resting on every emitted token consuming at least
one character) and always ends with an EOF token; the token-length sum
equation does not hold in general (see the counterexample). -/
theorem c8_amended_tokenize_ends_with_eof (s : String) :
    tokenize s ≠ [] ∧
    ((tokenize s).getLast?).map (fun t => t.kind) = some TokenType.EOF := by
  unfold tokenize
  constructor
  · simp
  · rw [List.getLast?_append]
    rfl

/-- C9: an object literal of the parser's shape (source properties followed
by the synthetic __keys__ property) evaluates to a map whose keys method
returns the keys in source order with __keys__ filtered out — the order is
read from the __keys__ entry, never from map iteration; and
parse_object_properties indeed appends the __keys__ property recording the
collected key order. -/
theorem c9_object_keys_in_source_order (H : Nat) (ks : List (String × Int))
    (env : Environment) (loc : Location)
    (h : ∀ kv ∈ ks, kv.1 ≠ ("__keys__")) :
    evaluate_expression (2 * ks.length + H + 4) (.ObjectLit (withKeysProp ks) loc) env
      = Res.ok (.Object (objKeysFinalMap ks)) env ∧
    handle_object_method (objKeysFinalMap ks) ("keys") []
      = .ok (.Array (ks.map (fun kv => Value.String kv.1))) ∧
    (∀ (fuel : Nat) (st st2 : ParserState) (props : List Property) (ko : List String),
      objPropsLoop fuel [] [] st = PRes.ok (props, ko) st2 →
      parse_object_properties (fuel + 1) st
        = PRes.ok (props ++ [ Property.mk ("__keys__")
            (.ArrayLit (ko.map (fun k => Expr.StringLit k (Location.mk 0 0))) (Location.mk 0 0))
            (Location.mk 0 0) ]) st2) := by
  refine ⟨?_, ?_, ?_⟩
  · rw [show evaluate_expression (2 * ks.length + H + 4) (.ObjectLit (withKeysProp ks) loc) env
      = (match evalObjectProps (2 * ks.length + H + 3) (withKeysProp ks) env [] with
         | Res.ok m env2 => Res.ok (.Object m) env2
         | Res.err e env2 => Res.err e env2
         | Res.out => Res.out) from rfl]
    rw [show withKeysProp ks = intProps ks ++ [ Property.mk ("__keys__")
      (.ArrayLit (keyStringLits ks) (Location.mk 0 0)) (Location.mk 0 0) ] from rfl]
    rw [show 2 * ks.length + H + 3 = ks.length + (ks.length + H + 2) + 1 from by omega]
    rw [evalObjectProps_intProps ks (ks.length + H + 2)
      [ Property.mk ("__keys__") (.ArrayLit (keyStringLits ks) (Location.mk 0 0))
          (Location.mk 0 0) ] env []]
    rw [show evalObjectProps (ks.length + H + 2 + 1)
        [ Property.mk ("__keys__") (.ArrayLit (keyStringLits ks) (Location.mk 0 0))
            (Location.mk 0 0) ] env (insertAllInt [] ks)
      = (match (match evalExprList (ks.length + H + 1) (keyStringLits ks) env with
          | Res.ok vs env2 => Res.ok (Value.Array vs) env2
          | Res.err e env2 => Res.err e env2
          | Res.out => Res.out) with
         | Res.ok v env2 =>
           evalObjectProps (ks.length + H + 2) [] env2
             (hm_insert (insertAllInt [] ks) ("__keys__") v)
         | Res.err e env2 => Res.err e env2
         | Res.out => Res.out) from rfl]
    rw [evalExprList_keyStringLits ks H env]
    rfl
  · rw [show handle_object_method (objKeysFinalMap ks) ("keys") []
      = .ok (.Array (((match hm_get (objKeysFinalMap ks) ("__keys__") with
          | some (.Array ks2) => ks2
          | _ => []) : List Value).filterMap objKeysFilter)) from rfl]
    rw [show objKeysFinalMap ks = hm_insert (insertAllInt [] ks) ("__keys__")
      (.Array (ks.map (fun kv => Value.String kv.1))) from rfl]
    rw [hm_get_insert_same]
    rw [show (match some (Value.Array (ks.map (fun kv => Value.String kv.1))) with
      | some (Value.Array ks2) => ks2
      | _ => ([] : List Value)) = ks.map (fun kv => Value.String kv.1) from rfl]
    rw [keysFilterMap_id ks h]
  · intro fuel st st2 props ko hloop
    rw [show parse_object_properties (fuel + 1) st
      = (match objPropsLoop fuel [] [] st with
         | PRes.ok (properties, key_order) st3 =>
           PRes.ok (properties ++
             [ Property.mk ("__keys__")
                 (.ArrayLit (key_order.map (fun k => Expr.StringLit k (Location.mk 0 0)))
                   (Location.mk 0 0))
                 (Location.mk 0 0) ]) st3
         | PRes.exited c e => PRes.exited c e
         | PRes.panicked m => PRes.panicked m
         | PRes.out => PRes.out) from rfl, hloop]

/-- C9 witness: the keys-order theorem applied to the literal
\x7b a: 1, b: 2, c: 3 \x7d. -/
theorem c9_witness :
    evaluate_expression 10
        (.ObjectLit (withKeysProp [(("a"), 1), (("b"), 2), (("c"), 3)]) ⟨1, 1⟩)
        (Environment.mk none [] [])
      = Res.ok (.Object (objKeysFinalMap [(("a"), 1), (("b"), 2), (("c"), 3)]))
          (Environment.mk none [] []) ∧
    handle_object_method (objKeysFinalMap [(("a"), 1), (("b"), 2), (("c"), 3)]) ("keys") []
      = .ok (.Array [Value.String ("a"), Value.String ("b"), Value.String ("c")]) := by
  have h := c9_object_keys_in_source_order 0 [(("a"), 1), (("b"), 2), (("c"), 3)]
    (Environment.mk none [] []) ⟨1, 1⟩ (by decide)
  refine ⟨h.1, ?_⟩
  rw [h.2.1]
  rfl

/-- C10: compare_values is false on every Array/Array, Object/Object and
Function/Function pair (even structurally identical ones); == and != wrap it
directly; equality can only hold on Int, Float, String or Boolean pairs; and
two identical array literals compare == false, != true end to end. -/
theorem c10_structural_equality_always_false :
    (∀ (a b : List Value), compare_values (.Array a) (.Array b) = false) ∧
    (∀ (m1 m2 : List (String × Value)), compare_values (.Object m1) (.Object m2) = false) ∧
    (∀ (f1 f2 : FunctionValue), compare_values (.Function f1) (.Function f2) = false) ∧
    (∀ (x y : Value) (loc : Location),
      applyBinaryOp ("==") x y loc = .ok (.Boolean (compare_values x y)) ∧
      applyBinaryOp ("!=") x y loc = .ok (.Boolean (!compare_values x y))) ∧
    (∀ (x y : Value), compare_values x y = true →
      (∃ l r : Int, x = .Int l ∧ y = .Int r ∧ l = r) ∨
      (∃ l r : Float, x = .Float l ∧ y = .Float r ∧ (l == r) = true) ∨
      (∃ l r : String, x = .String l ∧ y = .String r ∧ l = r) ∨
      (∃ l r : Bool, x = .Boolean l ∧ y = .Boolean r ∧ l = r)) ∧
    (∀ (fuel : Nat) (env : Environment) (loc : Location),
      evaluate_expression (fuel + 5)
          (.Binary (.ArrayLit [ .IntLit 1 loc ] loc) (.ArrayLit [ .IntLit 1 loc ] loc) ("==") loc)
          env
        = Res.ok (.Boolean false) env ∧
      evaluate_expression (fuel + 5)
          (.Binary (.ArrayLit [ .IntLit 1 loc ] loc) (.ArrayLit [ .IntLit 1 loc ] loc) ("!=") loc)
          env
        = Res.ok (.Boolean true) env) := by
  refine ⟨fun a b => rfl, fun m1 m2 => rfl, fun f1 f2 => rfl,
    fun x y loc => ⟨rfl, rfl⟩, ?_, fun fuel env loc => ⟨rfl, rfl⟩⟩
  intro x y h
  cases x <;> cases y <;>
    first
    | exact Bool.noConfusion (h : (false : Bool) = true)
    | exact Or.inl ⟨_, _, rfl, rfl, by simpa [compare_values] using h⟩
    | exact Or.inr (Or.inl ⟨_, _, rfl, rfl, h⟩)
    | exact Or.inr (Or.inr (Or.inl ⟨_, _, rfl, rfl, by simpa [compare_values] using h⟩))
    | exact Or.inr (Or.inr (Or.inr ⟨_, _, rfl, rfl, by simpa [compare_values] using h⟩))

/-- C10 witness: the only-scalar-equality clause applied to Int 1 == Int 1. -/
theorem c10_witness :
    compare_values (Value.Int 1) (Value.Int 1) = true ∧
    ((∃ l r : Int, Value.Int 1 = .Int l ∧ Value.Int 1 = .Int r ∧ l = r) ∨
     (∃ l r : Float, Value.Int 1 = .Float l ∧ Value.Int 1 = .Float r ∧ (l == r) = true) ∨
     (∃ l r : String, Value.Int 1 = .String l ∧ Value.Int 1 = .String r ∧ l = r) ∨
     (∃ l r : Bool, Value.Int 1 = .Boolean l ∧ Value.Int 1 = .Boolean r ∧ l = r)) := by
  refine ⟨rfl, ?_⟩
  exact (c10_structural_equality_always_false.2.2.2.2.1) (Value.Int 1) (Value.Int 1) rfl
